import Mathlib

/-!
Verification of the chess-master-server core against its specification.

The TypeScript source is shallowly embedded: Redis hashes, Mongo documents
and in-process maps become association lists inside an explicit `Store`
state record; each service function becomes a Lean function threading that
state.  `Date.now()` values, generated ids, `Math.random()` draws and the
chess.js engine verdicts are passed as explicit oracle arguments.  The only
real-valued quantity, the Elo expected score 1/(1+10^((Rb-Ra)/400)), is
passed as an explicit rational parameter `E`; the lemma
`expected_score_add_eq_one` justifies the identity E(a,b) + E(b,a) = 1 used
when the two players' expected scores are related.
-/

namespace ChessServer

/-- Association-list lookup keyed by strings (models a Redis/Mongo key lookup). -/
def alookup {α : Type} (l : List (String × α)) (k : String) : Option α :=
  (l.find? (fun p => p.1 == k)).map (fun p => p.2)

/-- Insert-or-replace for an association list (models `HSET`/`SETEX`/upsert). -/
def ainsert {α : Type} (l : List (String × α)) (k : String) (v : α) :
    List (String × α) :=
  match l with
  | [] => [(k, v)]
  | (k', v') :: rest =>
      if k' == k then (k, v) :: rest else (k', v') :: ainsert rest k v

/-- Update the value at a key, when present (models a partial hash update). -/
def aupdate {α : Type} (l : List (String × α)) (k : String) (f : α → α) :
    List (String × α) :=
  l.map (fun p => if p.1 == k then (p.1, f p.2) else p)

/-- Delete a key (models `DEL`). -/
def aerase {α : Type} (l : List (String × α)) (k : String) :
    List (String × α) :=
  l.filter (fun p => ¬ p.1 == k)

/-- `types/game.ts`: `PlayerColor`. -/
inductive PlayerColor : Type
  | white
  | black
deriving DecidableEq

/-- `types/game.ts`: `getOppositeColor`. -/
def getOppositeColor : PlayerColor → PlayerColor
  | .white => .black
  | .black => .white

/-- `types/game.ts`: `GameResult` (`"1-0" | "0-1" | "1/2-1/2"`). -/
inductive GameResult : Type
  | whiteWins
  | blackWins
  | draw
deriving DecidableEq

/-- `types/game.ts`: `TimeControl` (seconds). -/
structure TimeControl : Type where
  time : Int
  increment : Int
deriving DecidableEq

/-- `types/game.ts`: `GameInfoDTO`. -/
structure GameInfoDTO : Type where
  gameVariant : String
  gameType : String
  timeControl : TimeControl
deriving DecidableEq

/-- `types/game.ts`: `PlayerDTO` (postRating omitted: unused by the embedded paths). -/
structure PlayerDTO : Type where
  userId : String
  color : PlayerColor
  preRating : Int
deriving DecidableEq

/-- `types/game.ts`: `MoveDTO`. `from`/`to` are renamed: `from` is reserved. -/
structure MoveDTO : Type where
  move : String
  fromSq : String
  toSq : String
  timeStamp : Int
deriving DecidableEq

/-- The `{white, black}` millisecond pair stored in the game hash. -/
structure TimeLeft : Type where
  white : Int
  black : Int
deriving DecidableEq

/-- `timeLeft[color]`. -/
def TimeLeft.get (t : TimeLeft) : PlayerColor → Int
  | .white => t.white
  | .black => t.black

/-- `timeLeft[color] = v`. -/
def TimeLeft.set (t : TimeLeft) : PlayerColor → Int → TimeLeft
  | .white, v => { t with white := v }
  | .black, v => { t with black := v }

/-- `types/game.ts`: `ResultDTO`. -/
structure ResultDTO : Type where
  winner : Option PlayerColor
  reason : String
  score : GameResult
deriving DecidableEq

/-- `types/game.ts`: `timeControlToMs` (converts `time` seconds to ms for both clocks). -/
def timeControlToMs (tc : TimeControl) : TimeLeft :=
  { white := tc.time * 1000, black := tc.time * 1000 }

/-- JavaScript `Math.round`: round half toward positive infinity. -/
def jsRound (q : ℚ) : ℤ := ⌊q + 1/2⌋

/-- `RatingService`: the `PlayerRatingInfo` fields consumed by the calculation. -/
structure PlayerRatingInfo : Type where
  oldRating : Int
  isProvisional : Bool
  gamesPlayed : Int
deriving DecidableEq

/-- How `calculateNewRatings` builds a `PlayerRatingInfo`: provisional iff
`totalGames < PROVISIONAL_GAMES_THRESHOLD` (30). -/
def mkRatingInfo (oldRating totalGames : Int) : PlayerRatingInfo :=
  { oldRating := oldRating
  , isProvisional := totalGames < 30
  , gamesPlayed := totalGames }

/-- `RatingService.getKFactor`: 40 when provisional, else 10 / 16 / 32 by
rating tier (`K_FACTOR_ABOVE_2400 = 10`, `K_FACTOR_ABOVE_2100 = 16`,
`K_FACTOR_BELOW_2100 = 32`). -/
def getKFactor (p : PlayerRatingInfo) : Int :=
  if p.isProvisional then 40
  else if p.oldRating ≥ 2400 then 10
  else if p.oldRating ≥ 2100 then 16
  else 32

/-- `RatingService.calculateEloRating`, with the expected score passed in as
`expectedScore`.  Mirrors the source line by line: rounded change, floor at
`RATING_FLOOR = 100`, then the cap at `K_FACTOR_PROVISIONAL = 40` or
`MAX_RATING_CHANGE = 32`.  The final `Math.round` is the identity on the
integer result. -/
def calculateEloRating (p : PlayerRatingInfo) (expectedScore score : ℚ) : Int :=
  let kFactor := getKFactor p
  let ratingChange := jsRound ((kFactor : ℚ) * (score - expectedScore))
  let newRating := p.oldRating + ratingChange
  let newRating1 := max newRating 100
  let maxChange : Int := if p.isProvisional then 40 else 32
  let actualChange := newRating1 - p.oldRating
  if |actualChange| > maxChange then
    p.oldRating + (if actualChange > 0 then maxChange else -maxChange)
  else newRating1

/-- `RatingService.getScoreFromResult`: `(whiteScore, blackScore)`. -/
def getScoreFromResult : GameResult → ℚ × ℚ
  | .whiteWins => (1, 0)
  | .blackWins => (0, 1)
  | .draw => (1/2, 1/2)

/-- The two per-player deltas produced by one `calculateNewRatings` run
(lines 96-123): new minus old rating for white and black, with the two
expected-score values `ew`, `eb` passed explicitly. -/
def calcDeltas (whiteInfo blackInfo : PlayerRatingInfo) (ew eb : ℚ)
    (result : GameResult) : Int × Int :=
  let s := getScoreFromResult result
  let whiteNew := calculateEloRating whiteInfo ew s.1
  let blackNew := calculateEloRating blackInfo eb s.2
  (whiteNew - whiteInfo.oldRating, blackNew - blackInfo.oldRating)

/-! ## Shared server state

All persistent collaborators of the embedded services live in one explicit
state record: the Redis live-game hashes, the in-process `TimeManager` map,
the Mongo game and profile collections, the matchmaking keys and the socket
emissions performed so far (an append-only log recording each target). -/

/-- `services/redis/gameHash.ts`: the live-game Redis hash.  The base fields
mirror `GameHashDTO`; the ending fields are written by `updateGameHash`
(e.g. from `TimeManager.handleTimeUp`) but — exactly as in the source —
`getGameHash` never reads them back. -/
structure GameHashDTO : Type where
  playerInfo : List PlayerDTO
  timeLeft : TimeLeft
  gameInfo : GameInfoDTO
  initialFen : String
  moves : List MoveDTO
  pgn : String
  turn : PlayerColor
  startedAt : Int
  lastMovePlayedAt : Int
  gameOver : Option Bool := none
  winner : Option (Option PlayerColor) := none
  result : Option GameResult := none
  endReason : Option String := none
  endedAt : Option Int := none
deriving DecidableEq

/-- `TimeManager`: the in-process `GameTimeState` entry for a game. -/
structure GameTimeState : Type where
  lastMoveTime : Int
  isActive : Bool
  currentTurn : PlayerColor
deriving DecidableEq

/-- A Mongo game-document player (`models/game.ts`). -/
structure MongoPlayer : Type where
  userId : String
  color : PlayerColor
  preRating : Int
  postRating : Option Int := none
deriving DecidableEq

/-- The dynamically-typed `result` field of the game document: `RatingService`
writes the bare score string while the game-service paths write a
`{winner, reason, score}` object. -/
inductive MongoResult : Type
  | score (s : GameResult)
  | full (r : ResultDTO)
deriving DecidableEq

/-- The per-player entry of the pre-computed `ratingChanges` snapshot. -/
structure PotentialChange : Type where
  userId : String
  currentRating : Int
  onWin : Int
  onLoss : Int
  onDraw : Int
  isProvisional : Bool
deriving DecidableEq

/-- `RatingService.calculatePotentialRatingChanges` result. -/
structure PotentialRatingChanges : Type where
  whitePlayer : PotentialChange
  blackPlayer : PotentialChange
deriving DecidableEq

/-- The Mongo game document fields touched by the embedded paths. -/
structure MongoGame : Type where
  players : List MongoPlayer
  variant : String
  timeControl : TimeControl
  status : String := "on-going"
  pgn : String := ""
  result : Option MongoResult := none
  winner : Option (Option PlayerColor) := none
  endedAt : Option Int := none
  ratingChanges : Option PotentialRatingChanges := none
  createdAt : Int := 0
deriving DecidableEq

/-- The per-variant rating buckets of a user profile (absent values fall back
to `DEFAULT_RATING` through JavaScript `||`). -/
structure RatingBuckets : Type where
  rapid : Option Int := none
  blitz : Option Int := none
  bullet : Option Int := none
deriving DecidableEq

/-- `models/userProfile.ts`: the profile fields consumed by `RatingService`. -/
structure UserProfile : Type where
  rating : RatingBuckets
  totalGames : Int := 0
  wins : Int := 0
  losses : Int := 0
  draws : Int := 0
deriving DecidableEq

/-- `DynamicMatchMaking`: the `MatchSearchSession` stored under
`search_session:<userId>`. -/
structure MatchSearchSession : Type where
  userId : String
  gameType : String
  gameVariant : String
  timeControl : TimeControl
  initialRating : Int
  currentRange : Int
  searchStartTime : Int
  socketId : String
deriving DecidableEq

/-- `services/redis/playerHash.ts`: the presence entry for a player. -/
structure PlayerHashDTO : Type where
  playerId : String
  wsId : String
  rating : Int
  isPlayerConnected : Bool
deriving DecidableEq

/-- Where a socket emission was addressed: the whole game room
(`io.to(gameId)` / `emitToRoom`) or one socket (`socket.emit` /
`io.to(socketId)`). -/
inductive EmitTarget : Type
  | room (gameId : String)
  | socket (socketId : String)
deriving DecidableEq

/-- One socket emission: target plus `SOCKET_MESSAGE_TYPE` tag. -/
structure Emit : Type where
  target : EmitTarget
  msgType : String
deriving DecidableEq

/-- The whole shared state threaded through the embedded services. -/
structure Store : Type where
  redisGames : List (String × GameHashDTO) := []
  timeStates : List (String × GameTimeState) := []
  mongoGames : List (String × MongoGame) := []
  profiles : List (String × UserProfile) := []
  sessions : List (String × MatchSearchSession) := []
  queues : List (String × List (String × Int)) := []
  playerHashes : List (String × PlayerHashDTO) := []
  locks : List (String × String) := []
  emits : List Emit := []
deriving DecidableEq

/-- Append one emission to the log. -/
def Store.emit (s : Store) (target : EmitTarget) (msgType : String) : Store :=
  { s with emits := s.emits ++ [{ target := target, msgType := msgType }] }

/-- `getGameHash`: look the hash up and rebuild the DTO.  The source rebuilds
the DTO from the base fields only, so the ending fields written by
`updateGameHash` are dropped on every read. -/
def getGameHash (games : List (String × GameHashDTO)) (gameId : String) :
    Option GameHashDTO :=
  (alookup games gameId).map fun g =>
    { g with gameOver := none, winner := none, result := none,
             endReason := none, endedAt := none }

/-! ## Matchmaking queue primitives (`services/redis/matchMakingQueue.ts`)

A queue is the member list of one Redis sorted set, kept ordered by
ascending `(score, member)` as the sorted set itself is. -/

/-- Sorted-position insert used to maintain the sorted-set order. -/
def zinsertSorted (member : String) (score : Int) :
    List (String × Int) → List (String × Int)
  | [] => [(member, score)]
  | (m, sc) :: rest =>
      if score < sc ∨ (score = sc ∧ member < m) then
        (member, score) :: (m, sc) :: rest
      else (m, sc) :: zinsertSorted member score rest

/-- `ZADD`: replace any previous entry for the member, insert in order. -/
def zadd (q : List (String × Int)) (member : String) (score : Int) :
    List (String × Int) :=
  zinsertSorted member score (q.filter (fun p => ¬ p.1 == member))

/-- `ZREM`. -/
def zrem (q : List (String × Int)) (member : String) : List (String × Int) :=
  q.filter (fun p => ¬ p.1 == member)

/-- `ZSCORE` (as an option). -/
def zscore (q : List (String × Int)) (member : String) : Option Int :=
  (q.find? (fun p => p.1 == member)).map (fun p => p.2)

/-- `ZRANGEBYSCORE min max`: members whose score lies in the closed range. -/
def zrangebyscore (q : List (String × Int)) (lo hi : Int) : List String :=
  (q.filter (fun p => lo ≤ p.2 ∧ p.2 ≤ hi)).map (fun p => p.1)

/-- `addPlayerToQueue(gameType, playerId, rating)`. -/
def addPlayerToQueue (queues : List (String × List (String × Int)))
    (gameType playerId : String) (rating : Int) :
    List (String × List (String × Int)) :=
  match alookup queues gameType with
  | none => ainsert queues gameType (zadd [] playerId rating)
  | some q => ainsert queues gameType (zadd q playerId rating)

/-- `removePlayerFromQueue(gameType, playerId)`. -/
def removePlayerFromQueue (queues : List (String × List (String × Int)))
    (gameType playerId : String) : List (String × List (String × Int)) :=
  aupdate queues gameType (fun q => zrem q playerId)

/-- `getOpponentInRange(gameType, min, max)`. -/
def getOpponentInRange (queues : List (String × List (String × Int)))
    (gameType : String) (lo hi : Int) : List String :=
  zrangebyscore ((alookup queues gameType).getD []) lo hi

/-- `isPlayerInQueue(gameType, playerId)` — the non-destructive check. -/
def isPlayerInQueue (queues : List (String × List (String × Int)))
    (gameType playerId : String) : Bool :=
  (zscore ((alookup queues gameType).getD []) playerId).isSome

/-! ## RatingService: profile-facing pieces -/

/-- The three rating buckets. -/
inductive RatingType : Type
  | rapid
  | blitz
  | bullet
deriving DecidableEq

/-- `profile.rating[ratingType]` access. -/
def RatingBuckets.get (r : RatingBuckets) : RatingType → Option Int
  | .rapid => r.rapid
  | .blitz => r.blitz
  | .bullet => r.bullet

/-- `rating[ratingType] = v` update. -/
def RatingBuckets.set (r : RatingBuckets) : RatingType → Int → RatingBuckets
  | .rapid, v => { r with rapid := some v }
  | .blitz, v => { r with blitz := some v }
  | .bullet, v => { r with bullet := some v }

/-- JavaScript `toUpperCase` on the ASCII variant names, written as a
structural map so that concrete evaluation reduces. -/
def toUpperString (s : String) : String :=
  String.mk (s.data.map Char.toUpper)

/-- `RatingService.getRatingTypeFromVariant` (throws on unsupported variants). -/
def getRatingTypeFromVariant (gameVariant : String) : Except String RatingType :=
  if toUpperString gameVariant == "RAPID" then .ok .rapid
  else if toUpperString gameVariant == "BLITZ" then .ok .blitz
  else if toUpperString gameVariant == "BULLET" then .ok .bullet
  else .error "Unsupported game variant"

/-- JavaScript `rating[type] || DEFAULT_RATING`: both a missing bucket and a
stored 0 fall back to 1200. -/
def ratingOr1200 : Option Int → Int
  | none => 1200
  | some v => if v == 0 then 1200 else v

/-- How `RatingService` builds the `PlayerRatingInfo` from a profile. -/
def infoOfProfile (p : UserProfile) (rt : RatingType) : PlayerRatingInfo :=
  mkRatingInfo (ratingOr1200 (p.rating.get rt)) p.totalGames

/-- `RatingService.calculatePotentialRatingChanges`, with the expected-score
function `E` passed explicitly (each `calculateEloRating` call site evaluates
`calculateExpectedScore(player, opponent)`). -/
def calculatePotentialRatingChanges (E : Int → Int → ℚ)
    (profiles : List (String × UserProfile))
    (whitePlayerId blackPlayerId gameVariant : String) :
    Except String PotentialRatingChanges := do
  let some whiteProfile := alookup profiles whitePlayerId
    | .error "Player profiles not found"
  let some blackProfile := alookup profiles blackPlayerId
    | .error "Player profiles not found"
  let ratingType ← getRatingTypeFromVariant gameVariant
  let whiteInfo := infoOfProfile whiteProfile ratingType
  let blackInfo := infoOfProfile blackProfile ratingType
  let ew := E whiteInfo.oldRating blackInfo.oldRating
  let eb := E blackInfo.oldRating whiteInfo.oldRating
  let whiteWin := calculateEloRating whiteInfo ew 1
  let whiteLoss := calculateEloRating whiteInfo ew 0
  let whiteDraw := calculateEloRating whiteInfo ew (1/2)
  let blackWin := calculateEloRating blackInfo eb 1
  let blackLoss := calculateEloRating blackInfo eb 0
  let blackDraw := calculateEloRating blackInfo eb (1/2)
  .ok
    { whitePlayer :=
        { userId := whitePlayerId, currentRating := whiteInfo.oldRating
        , onWin := whiteWin - whiteInfo.oldRating
        , onLoss := whiteLoss - whiteInfo.oldRating
        , onDraw := whiteDraw - whiteInfo.oldRating
        , isProvisional := whiteInfo.isProvisional }
    , blackPlayer :=
        { userId := blackPlayerId, currentRating := blackInfo.oldRating
        , onWin := blackWin - blackInfo.oldRating
        , onLoss := blackLoss - blackInfo.oldRating
        , onDraw := blackDraw - blackInfo.oldRating
        , isProvisional := blackInfo.isProvisional } }

/-! ## DynamicMatchMaking (`services/matchmaking`, src/unnamed/part_016) -/

/-- `types/game.ts`: `DEFAULT_FEN`. -/
def DEFAULT_FEN : String :=
  "rnbqkbnr/pppppppp/8/8/8/8/PPPPPPPP/RNBQKBNR w KQkq - 0 1"

/-- Insertion step for sorting game documents by `createdAt` descending
(the `sort(\x7b createdAt: -1 \x7d)` of `getRecentColorHistory`). -/
def insertByCreatedDesc (g : MongoGame) : List MongoGame → List MongoGame
  | [] => [g]
  | h :: t =>
      if h.createdAt ≥ g.createdAt then h :: insertByCreatedDesc g t
      else g :: h :: t

/-- Sort game documents by `createdAt` descending. -/
def sortByCreatedDesc : List MongoGame → List MongoGame
  | [] => []
  | h :: t => insertByCreatedDesc h (sortByCreatedDesc t)

/-- `DynamicMatchMaking.getRecentColorHistory`: colors of the player's last
(up to) 10 completed games, newest first. -/
def getRecentColorHistory (mongoGames : List (String × MongoGame))
    (playerId : String) : List PlayerColor :=
  let completed := (mongoGames.map (fun p => p.2)).filter
    (fun g => g.status == "completed" ∧ g.players.any (fun p => p.userId == playerId))
  ((sortByCreatedDesc completed).take 10).filterMap
    (fun g => (g.players.find? (fun p => p.userId == playerId)).map (fun p => p.color))

/-- `DynamicMatchMaking.countConsecutiveColors`. -/
def countConsecutiveColors (colorHistory : List PlayerColor)
    (targetColor : PlayerColor) : Nat :=
  (colorHistory.takeWhile (fun c => c == targetColor)).length

/-- `DynamicMatchMaking.determineColors`, with the `Math.random()` draw passed
as `rand`.  Returns `(whitePlayerId, blackPlayerId)`.  The source also
computes `player2WhiteRatio` but never reads it, so it is omitted. -/
def determineColors (mongoGames : List (String × MongoGame)) (rand : ℚ)
    (player1Id : String) (player1Rating : Int)
    (player2Id : String) (player2Rating : Int) : String × String :=
  let player1History := getRecentColorHistory mongoGames player1Id
  let player2History := getRecentColorHistory mongoGames player2Id
  let ratingDiff := |player1Rating - player2Rating|
  let p0 : ℚ := 1/2
  let p1 :=
    if ratingDiff > 100 then
      let adjustment := min ((ratingDiff : ℚ) / 2000) (1/10)
      if player1Rating > player2Rating then p0 - adjustment else p0 + adjustment
    else p0
  let w1 := countConsecutiveColors player1History .white
  let b1 := countConsecutiveColors player1History .black
  let w2 := countConsecutiveColors player2History .white
  let b2 := countConsecutiveColors player2History .black
  let p2 := if w1 ≥ 2 then p1 - 3/10 else if b1 ≥ 2 then p1 + 3/10 else p1
  let p3 := if w2 ≥ 2 then p2 + 2/10 else if b2 ≥ 2 then p2 - 2/10 else p2
  let whiteRatio1 : ℚ :=
    ((player1History.filter (fun c => c == PlayerColor.white)).length : ℚ) /
      (max player1History.length 1 : ℚ)
  let p4 :=
    if whiteRatio1 > 7/10 then p3 - 2/10
    else if whiteRatio1 < 3/10 then p3 + 2/10
    else p3
  let p5 := max (1/10) (min (9/10) p4)
  if rand < p5 then (player1Id, player2Id) else (player2Id, player1Id)

/-- `DynamicMatchMaking.createGameForPlayers`: color assignment, potential
rating changes, Mongo game creation (id from the `newGameId` oracle) and the
Redis game hash.  A thrown error inside is caught by the source's try/catch
and surfaces as `success: false` (`none`). -/
def createGameForPlayers (E : Int → Int → ℚ) (rand : ℚ)
    (newGameId : String) (now : Int) (s : Store)
    (session : MatchSearchSession) (opponentId : String) (opponentRating : Int) :
    Store × Option (String × PotentialRatingChanges) :=
  let colors := determineColors s.mongoGames rand session.userId
    session.initialRating opponentId opponentRating
  let whitePlayerId := colors.1
  match calculatePotentialRatingChanges E s.profiles colors.1 colors.2
      session.gameVariant with
  | .error _ => (s, none)
  | .ok ratingChanges =>
      let playerInfo : List PlayerDTO :=
        [ { userId := session.userId
          , color := if session.userId == whitePlayerId then .white else .black
          , preRating := session.initialRating }
        , { userId := opponentId
          , color := if opponentId == whitePlayerId then .white else .black
          , preRating := opponentRating } ]
      let doc : MongoGame :=
        { players := playerInfo.map
            (fun p => { userId := p.userId, color := p.color, preRating := p.preRating })
        , variant := session.gameVariant
        , timeControl := session.timeControl
        , ratingChanges := some ratingChanges
        , createdAt := now }
      let hash : GameHashDTO :=
        { playerInfo := playerInfo
        , timeLeft := timeControlToMs session.timeControl
        , gameInfo :=
            { gameVariant := session.gameVariant
            , gameType := session.gameType
            , timeControl := session.timeControl }
        , initialFen := DEFAULT_FEN
        , moves := []
        , pgn := ""
        , turn := .white
        , startedAt := now
        , lastMovePlayedAt := now }
      ( { s with mongoGames := ainsert s.mongoGames newGameId doc
               , redisGames := ainsert s.redisGames newGameId hash }
      , some (newGameId, ratingChanges) )

/-- `DynamicMatchMaking.cancelSearch`: remove queue entry, presence hash and
session; a no-op when no session is stored. -/
def cancelSearch (s : Store) (userId : String) : Store :=
  match alookup s.sessions userId with
  | none => s
  | some session =>
      { s with queues := removePlayerFromQueue s.queues session.gameType userId
             , playerHashes := aerase s.playerHashes userId
             , sessions := aerase s.sessions userId }

/-- `DynamicMatchMaking.startSearch`: unconditionally writes a fresh session
(`currentRange = INITIAL_RANGE = 60`, `searchStartTime = Date.now()`) with a
fresh TTL and (re)adds the player to the queue for the game type. -/
def startSearch (s : Store) (userId gameType gameVariant : String)
    (timeControl : TimeControl) (userRating : Int) (socketId : String)
    (now : Int) : Store :=
  let session : MatchSearchSession :=
    { userId := userId, gameType := gameType, gameVariant := gameVariant
    , timeControl := timeControl, initialRating := userRating
    , currentRange := 60, searchStartTime := now, socketId := socketId }
  { s with sessions := ainsert s.sessions userId session
         , queues := addPlayerToQueue s.queues gameType userId userRating }

/-- `processSearchRequest` range computation:
`min(INITIAL_RANGE + floor(searchDuration / SEARCH_INTERVAL) * RANGE_EXPANSION,
MAX_RANGE)` with `INITIAL_RANGE = RANGE_EXPANSION = 60`,
`SEARCH_INTERVAL = 3000`, `MAX_RANGE = 600`. -/
def computeNewRange (searchDuration : Int) : Int :=
  min (60 + (Int.fdiv searchDuration 3000) * 60) 600

/-- The conditional range write of `processSearchRequest`: the session range
is replaced only when the newly computed range is strictly larger. -/
def updatedRange (current newRange : Int) : Int :=
  if newRange > current then newRange else current

/-- The `tick` result (`MatchSearchResult` of the source). -/
structure MatchSearchResult : Type where
  found : Bool
  gameId : Option String := none
  opponent : Option (String × Int) := none
  currentRange : Int
  searchDuration : Int
  ratingChanges : Option PotentialRatingChanges := none
deriving DecidableEq

/-- The JS `[a, b].sort().join(":")` for two distinct ids. -/
def sortedPairKey (a b : String) : String :=
  if a < b then a ++ ":" ++ b else b ++ ":" ++ a

/-- The candidate loop of `processSearchRequest`: per candidate — skip self,
evict queue entries without a presence hash, check availability, take the
`match_lock` set-if-absent, re-check both players, remove both from the
queue, then create the game; failures release the lock and continue. -/
def tryOpponents (E : Int → Int → ℚ) (rand : ℚ) (newGameId : String)
    (now : Int) (session : MatchSearchSession) (searchDuration : Int) :
    Store → List String → Store × MatchSearchResult
  | s, [] =>
      (s, { found := false, currentRange := session.currentRange
          , searchDuration := searchDuration })
  | s, opponentId :: rest =>
      if opponentId == session.userId then
        tryOpponents E rand newGameId now session searchDuration s rest
      else
        match alookup s.playerHashes opponentId with
        | none =>
            tryOpponents E rand newGameId now session searchDuration
              { s with queues :=
                  removePlayerFromQueue s.queues session.gameType opponentId }
              rest
        | some opponentDetails =>
            if ¬ isPlayerInQueue s.queues session.gameType opponentId then
              tryOpponents E rand newGameId now session searchDuration
                { s with queues :=
                    removePlayerFromQueue s.queues session.gameType opponentId }
                rest
            else
              let lockKey := "match_lock:" ++ sortedPairKey session.userId opponentId
              if (alookup s.locks lockKey).isSome then
                tryOpponents E rand newGameId now session searchDuration s rest
              else
                let lockValue := session.userId ++ "_" ++ toString now
                let s1 := { s with locks := ainsert s.locks lockKey lockValue }
                if ¬ (isPlayerInQueue s1.queues session.gameType session.userId ∧
                      isPlayerInQueue s1.queues session.gameType opponentId) then
                  tryOpponents E rand newGameId now session searchDuration
                    { s1 with locks := aerase s1.locks lockKey } rest
                else
                  let removedSelf :=
                    removePlayerFromQueue s1.queues session.gameType session.userId
                  let removedBoth :=
                    removePlayerFromQueue removedSelf session.gameType opponentId
                  let s2 := { s1 with queues := removedBoth }
                  match createGameForPlayers E rand newGameId now s2 session
                      opponentId opponentDetails.rating with
                  | (s3, some res) =>
                      let s4 := cancelSearch (cancelSearch s3 session.userId) opponentId
                      ( { s4 with locks := aerase s4.locks lockKey }
                      , { found := true, gameId := some res.1
                        , opponent := some (opponentId, opponentDetails.rating)
                        , currentRange := session.currentRange
                        , searchDuration := searchDuration
                        , ratingChanges := some res.2 } )
                  | (s3, none) =>
                      tryOpponents E rand newGameId now session searchDuration
                        { s3 with locks := aerase s3.locks lockKey } rest

/-- `DynamicMatchMaking.processSearchRequest`: the matchmaking tick.  With no
stored session it returns `found:false, currentRange:0, searchDuration:0`
untouched; otherwise it refreshes the range, queries the queue window and
walks the candidates.  (The empty-candidate early return and the loop's
fallthrough produce the identical result.) -/
def processSearchRequest (E : Int → Int → ℚ) (rand : ℚ) (newGameId : String)
    (s : Store) (userId : String) (now : Int) : Store × MatchSearchResult :=
  match alookup s.sessions userId with
  | none => (s, { found := false, currentRange := 0, searchDuration := 0 })
  | some session =>
      let searchDuration := now - session.searchStartTime
      let newRange := computeNewRange searchDuration
      let session1 :=
        if newRange > session.currentRange then
          { session with currentRange := newRange }
        else session
      let s1 :=
        if newRange > session.currentRange then
          { s with sessions := ainsert s.sessions userId session1 }
        else s
      let minRating := session1.initialRating - session1.currentRange
      let maxRating := session1.initialRating + session1.currentRange
      let opponents := getOpponentInRange s1.queues session1.gameType minRating maxRating
      tryOpponents E rand newGameId now session1 searchDuration s1 opponents

/-! ## Game hash operations (`services/redis/gameHash.ts`) -/

/-- `addMoveToGameHash(gameId, move, playedBy)`: turn check, move append,
clock deduction `max(0, elapsed − increment·1000)` applied as
`max(0, timeLeft − timeToDeduct)`, turn flip, `lastMovePlayedAt = Date.now()`.
The two `Date.now()` calls inside the function are the same instant `now`. -/
def addMoveToGameHash (games : List (String × GameHashDTO)) (gameId : String)
    (move : MoveDTO) (playedBy : PlayerColor) (now : Int) :
    Except String (List (String × GameHashDTO)) :=
  match alookup games gameId with
  | none => .error "Game not found in Redis"
  | some gameData =>
      let currentTurn := gameData.turn
      if playedBy ≠ currentTurn then .error "It's not your turn"
      else
        let moves := gameData.moves ++ [move]
        let increment := gameData.gameInfo.timeControl.increment * 1000
        let timeElapsed := now - gameData.lastMovePlayedAt
        let timeToDeduct := max 0 (timeElapsed - increment)
        let timeLeft := gameData.timeLeft.set currentTurn
          (max 0 (gameData.timeLeft.get currentTurn - timeToDeduct))
        let newTurn := getOppositeColor currentTurn
        .ok (aupdate games gameId (fun g =>
          { g with moves := moves, timeLeft := timeLeft, turn := newTurn
                 , lastMovePlayedAt := now }))

/-! ## TimeManager (src/unnamed/part_025) -/

/-- `TimeManager.calculateCurrentTime`: 0 when the live hash or the
in-process clock entry is missing; the stored `timeLeft[color]` unchanged
unless it is that color's turn on an active clock, in which case the elapsed
time since `lastMoveTime` is deducted (floored at 0). -/
def calculateCurrentTime (games : List (String × GameHashDTO))
    (timeStates : List (String × GameTimeState)) (gameId : String)
    (playerColor : PlayerColor) (now : Int) : Int :=
  match getGameHash games gameId, alookup timeStates gameId with
  | some gameState, some timeState =>
      let currentTime := gameState.timeLeft.get playerColor
      if timeState.currentTurn = playerColor ∧ timeState.isActive then
        max 0 (currentTime - (now - timeState.lastMoveTime))
      else currentTime
  | _, _ => 0

/-- `TimeManager.updateTimeAfterMove`: a second, independent clock update per
move — `timeLeft[mover] = max(0, timeLeft[mover] − (moveTimestamp −
clockState.lastMoveTime) + increment·1000)` — plus hash writes of
`lastMovePlayedAt` and `turn`, and the in-process clock flip.  No-op when the
hash or clock entry is missing. -/
def updateTimeAfterMove (games : List (String × GameHashDTO))
    (timeStates : List (String × GameTimeState)) (gameId : String)
    (movingPlayer : PlayerColor) (moveTimestamp : Int) :
    List (String × GameHashDTO) × List (String × GameTimeState) :=
  match getGameHash games gameId, alookup timeStates gameId with
  | some gameState, some timeState =>
      let increment := gameState.gameInfo.timeControl.increment * 1000
      let timeElapsed := moveTimestamp - timeState.lastMoveTime
      let newValue := max 0 (gameState.timeLeft.get movingPlayer - timeElapsed + increment)
      let timeLeft := gameState.timeLeft.set movingPlayer newValue
      ( aupdate games gameId (fun g =>
          { g with timeLeft := timeLeft, lastMovePlayedAt := moveTimestamp
                 , turn := getOppositeColor movingPlayer })
      , ainsert timeStates gameId
          { lastMoveTime := moveTimestamp
          , currentTurn := getOppositeColor movingPlayer
          , isActive := timeState.isActive } )
  | _, _ => (games, timeStates)

/-- `TimeManager.stopGameTimer`: deactivates and deletes the clock entry. -/
def stopGameTimer (timeStates : List (String × GameTimeState))
    (gameId : String) : List (String × GameTimeState) :=
  aerase timeStates gameId

/-! ## RatingService database update (src/unnamed/part_026) -/

/-- The `RatingCalculationResult` fields the embedded paths consume. -/
structure RatingCalculationResult : Type where
  whiteOldRating : Int
  whiteNewRating : Int
  blackOldRating : Int
  blackNewRating : Int
deriving DecidableEq

/-- `RatingService.calculateNewRatings`, expected scores through `E`. -/
def calculateNewRatings (E : Int → Int → ℚ)
    (mongoGames : List (String × MongoGame))
    (profiles : List (String × UserProfile))
    (gameId : String) (gameResult : GameResult) (gameVariant : String) :
    Except String RatingCalculationResult := do
  let some game := alookup mongoGames gameId | .error "Game not found"
  let some whitePlayer := game.players.find? (fun p => p.color == PlayerColor.white)
    | .error "Invalid game players"
  let some blackPlayer := game.players.find? (fun p => p.color == PlayerColor.black)
    | .error "Invalid game players"
  let some whiteProfile := alookup profiles whitePlayer.userId
    | .error "Player profiles not found"
  let some blackProfile := alookup profiles blackPlayer.userId
    | .error "Player profiles not found"
  let ratingType ← getRatingTypeFromVariant gameVariant
  let whiteInfo := infoOfProfile whiteProfile ratingType
  let blackInfo := infoOfProfile blackProfile ratingType
  let s := getScoreFromResult gameResult
  let whiteNew := calculateEloRating whiteInfo
    (E whiteInfo.oldRating blackInfo.oldRating) s.1
  let blackNew := calculateEloRating blackInfo
    (E blackInfo.oldRating whiteInfo.oldRating) s.2
  .ok { whiteOldRating := whiteInfo.oldRating, whiteNewRating := whiteNew
      , blackOldRating := blackInfo.oldRating, blackNewRating := blackNew }

/-- The `$set`/`$inc` profile write of `updatePlayerRatings` for one player:
store the new bucket rating, bump `totalGames`, and bump the
win/loss/draw counter selected by the winner relative to `myColor`. -/
def applyProfileUpdate (p : UserProfile) (ratingType : RatingType)
    (newRating : Int) (winner : Option PlayerColor) (myColor : PlayerColor) :
    UserProfile :=
  { p with rating := p.rating.set ratingType newRating
         , totalGames := p.totalGames + 1
         , wins := p.wins + (if winner = some myColor then 1 else 0)
         , losses := p.losses +
             (if winner = some (getOppositeColor myColor) then 1 else 0)
         , draws := p.draws + (if winner = none then 1 else 0) }

/-- The `winner === "white" ? "1-0" : "0-1"` score used by the finalization
paths. -/
def winnerResult (winner : PlayerColor) : GameResult :=
  if winner = PlayerColor.white then .whiteWins else .blackWins

/-- The `findByIdAndUpdate` of `updatePlayerRatings`: write both
`postRating`s into the player array, mark the game completed, store the bare
score as `result` and set `winner`. -/
def mongoRatingsPatch (whiteNew blackNew : Int) (gameResult : GameResult)
    (winner : Option PlayerColor) (g : MongoGame) : MongoGame :=
  { g with
    players := g.players.map (fun q =>
      if q.color == PlayerColor.white then { q with postRating := some whiteNew }
      else if q.color == PlayerColor.black then { q with postRating := some blackNew }
      else q)
  , status := "completed"
  , result := some (.score gameResult)
  , winner := some winner }

/-- The `findByIdAndUpdate` of the `ChessGameService` finalization paths:
mark completed, store the engine PGN and the `{winner, reason, score}`
result object, stamp `endedAt`. -/
def completeGamePatch (pgn : String) (winner : Option PlayerColor)
    (reason : String) (score : GameResult) (now : Int) (g : MongoGame) :
    MongoGame :=
  { g with status := "completed", pgn := pgn
         , result := some (.full { winner := winner, reason := reason, score := score })
         , endedAt := some now }

/-- `RatingService.updatePlayerRatings`: recompute ratings, then write both
profiles (`findOneAndUpdate` without upsert: a missing profile is silently
skipped) and patch the game document (`postRating`s, `status: completed`,
the bare score as `result`, and `winner`).  No part of it consults any
already-finalized state. -/
def updatePlayerRatings (E : Int → Int → ℚ)
    (mongoGames : List (String × MongoGame))
    (profiles : List (String × UserProfile))
    (gameId : String) (gameResult : GameResult) (gameVariant : String)
    (winner : Option PlayerColor) :
    Except String
      (List (String × MongoGame) × List (String × UserProfile) ×
        RatingCalculationResult) := do
  let calcResult ← calculateNewRatings E mongoGames profiles gameId gameResult gameVariant
  let ratingType ← getRatingTypeFromVariant gameVariant
  let some game := alookup mongoGames gameId | .error "Game not found"
  let some whitePlayer := game.players.find? (fun p => p.color == PlayerColor.white)
    | .error "Invalid game players"
  let some blackPlayer := game.players.find? (fun p => p.color == PlayerColor.black)
    | .error "Invalid game players"
  let profiles1 := aupdate profiles whitePlayer.userId
    (fun p => applyProfileUpdate p ratingType calcResult.whiteNewRating winner .white)
  let profiles2 := aupdate profiles1 blackPlayer.userId
    (fun p => applyProfileUpdate p ratingType calcResult.blackNewRating winner .black)
  let mongo1 := aupdate mongoGames gameId
    (mongoRatingsPatch calcResult.whiteNewRating calcResult.blackNewRating
      gameResult winner)
  .ok (mongo1, profiles2, calcResult)

/-! ## ChessGameService finalization paths
(`services/chess/ChessGameService.ts`) — `fromGameId` replays the stored
moves through chess.js; the engine's final PGN is the `pgn` oracle. -/

/-- `ChessGameService.handleResignation(resigningPlayer)`: winner is the
opposite color; run `updatePlayerRatings`, then mark the Mongo game
completed with a `resignation` result.  There is no check whatsoever of any
previous finalization. -/
def handleResignation (E : Int → Int → ℚ) (s : Store) (gameId : String)
    (resigningPlayer : PlayerColor) (pgn : String) (now : Int) :
    Except String Store := do
  let winner := getOppositeColor resigningPlayer
  let result := winnerResult winner
  let some gameState := getGameHash s.redisGames gameId
    | .error "Game state not found"
  let (mongo1, profiles1, _) ← updatePlayerRatings E s.mongoGames s.profiles
    gameId result gameState.gameInfo.gameVariant (some winner)
  let mongo2 := aupdate mongo1 gameId
    (completeGamePatch pgn (some winner) "resignation" result now)
  .ok { s with mongoGames := mongo2, profiles := profiles1 }

/-- `ChessGameService.handleTimeForfit(playerColor)`: identical shape with a
`timeout` result. -/
def handleTimeForfit (E : Int → Int → ℚ) (s : Store) (gameId : String)
    (playerColor : PlayerColor) (pgn : String) (now : Int) :
    Except String Store := do
  let winner := getOppositeColor playerColor
  let result := winnerResult winner
  let some gameState := getGameHash s.redisGames gameId
    | .error "Game state not found"
  let (mongo1, profiles1, _) ← updatePlayerRatings E s.mongoGames s.profiles
    gameId result gameState.gameInfo.gameVariant (some winner)
  let mongo2 := aupdate mongo1 gameId
    (completeGamePatch pgn (some winner) "timeout" result now)
  .ok { s with mongoGames := mongo2, profiles := profiles1 }

/-! ## Socket handlers (`services/socket/gameHandler.ts`) and
`TimeManager` entry points.  The chess.js verdict for a move is the
`EngineMoveResult` oracle; error paths emit on the caller's socket only. -/

/-- The chess.js outcome of `ChessGameService.fromGameId` + `makeMove`. -/
structure EngineMoveResult : Type where
  success : Bool
  san : String
  fromSq : String
  toSq : String
  newPgn : String
  newTurn : PlayerColor
  isGameOver : Bool
deriving DecidableEq

/-- `gameHandler.handleMove`: hash lookup, membership check, engine verdict,
`addMoveToGameHash`, `TimeManager.updateTimeAfterMove`, `updateGameHash`
with the engine's PGN and turn, then the room broadcast (`game_over` if the
engine reports a terminal position, else `move`).  All `Date.now()` reads of
one invocation are the instant `now`. -/
def handleMove (s : Store) (gameId userId : String) (eng : EngineMoveResult)
    (now : Int) : Store :=
  match getGameHash s.redisGames gameId with
  | none => s.emit (.socket userId) "move"
  | some gameState =>
      match gameState.playerInfo.find? (fun p => p.userId == userId) with
      | none => s.emit (.socket userId) "move"
      | some player =>
          if ¬ eng.success then s.emit (.socket userId) "move"
          else
            let move : MoveDTO :=
              { move := eng.san, fromSq := eng.fromSq, toSq := eng.toSq
              , timeStamp := now }
            match addMoveToGameHash s.redisGames gameId move player.color now with
            | .error _ => s.emit (.socket userId) "move"
            | .ok games1 =>
                let updated := updateTimeAfterMove games1 s.timeStates gameId
                  player.color now
                let games3 := aupdate updated.1 gameId (fun g =>
                  { g with pgn := eng.newPgn, turn := eng.newTurn })
                let s1 := { s with redisGames := games3, timeStates := updated.2 }
                if eng.isGameOver then
                  let s2 := { s1 with timeStates := stopGameTimer s1.timeStates gameId }
                  s2.emit (.room gameId) "game_over"
                else s1.emit (.room gameId) "move"

/-- `gameHandler.handleResign`: hash lookup, membership check,
`ChessGameService.handleResignation`, stop the clock, broadcast `game_over`
to the room.  Any thrown error is caught and reported on the resigner's
socket; no path checks for an already-finished game. -/
def handleResign (E : Int → Int → ℚ) (s : Store) (gameId userId : String)
    (pgn : String) (now : Int) : Store :=
  match getGameHash s.redisGames gameId with
  | none => s.emit (.socket userId) "resign"
  | some gameState =>
      match gameState.playerInfo.find? (fun p => p.userId == userId) with
      | none => s.emit (.socket userId) "resign"
      | some player =>
          match handleResignation E s gameId player.color pgn now with
          | .error _ => s.emit (.socket userId) "resign"
          | .ok s1 =>
              let s2 := { s1 with timeStates := stopGameTimer s1.timeStates gameId }
              s2.emit (.room gameId) "game_over"

/-- `TimeManager.handleTimeUp`: stop tracking, run the forfeit
(`handleTimeForfit`, which applies the rating updates), then write the
ending fields into the Redis hash (`gameOver`, `winner`, `result`,
`endReason`, `endedAt`) and broadcast `game_over` to the room.  The
function never reads any previously-written `gameOver` flag. -/
def handleTimeUp (E : Int → Int → ℚ) (s : Store) (gameId : String)
    (playerColor : PlayerColor) (pgn : String) (now : Int) : Store :=
  match getGameHash s.redisGames gameId with
  | none => { s with timeStates := stopGameTimer s.timeStates gameId }
  | some _ =>
      let s1 := { s with timeStates := stopGameTimer s.timeStates gameId }
      let winner := getOppositeColor playerColor
      let gameResult := winnerResult winner
      match handleTimeForfit E s1 gameId playerColor pgn now with
      | .error _ => s1
      | .ok s2 =>
          let s3 := { s2 with redisGames := aupdate s2.redisGames gameId (fun g =>
            { g with gameOver := some true, winner := some (some winner)
                   , result := some gameResult, endReason := some "timeout"
                   , endedAt := some now }) }
          s3.emit (.room gameId) "game_over"

/-- `TimeManager.broadcastTimeUpdate`: emits the authoritative clock pair to
the whole game room (`io.to(gameId)`). -/
def broadcastTimeUpdate (s : Store) (gameId : String) : Store :=
  match getGameHash s.redisGames gameId with
  | none => s
  | some _ => s.emit (.room gameId) "time_update"

/-- `TimeManager.handleClientTimeUpReport`: validate the reporter's
membership, compute the claimed player's remaining time, and either forfeit
(when it is within the 100 ms tolerance) or push the corrective
`broadcastTimeUpdate` — which goes to the room, not only to the reporter. -/
def handleClientTimeUpReport (E : Int → Int → ℚ) (s : Store)
    (gameId reportingUserId : String) (claimedTimeUpPlayer : PlayerColor)
    (pgn : String) (now : Int) : Store :=
  match getGameHash s.redisGames gameId with
  | none => s
  | some gameState =>
      match gameState.playerInfo.find? (fun p => p.userId == reportingUserId) with
      | none => s
      | some _ =>
          let actualTimeLeft := calculateCurrentTime s.redisGames s.timeStates
            gameId claimedTimeUpPlayer now
          if actualTimeLeft ≤ 100 then
            handleTimeUp E s gameId claimedTimeUpPlayer pgn now
          else broadcastTimeUpdate s gameId

/-! ## Concrete fixtures for counterexamples and witnesses -/

/-- The constant expected-score oracle 1/2: the exact value of
`calculateExpectedScore` whenever both ratings are equal (10^0 = 1 exactly,
also in binary floating point). -/
def halfE : Int → Int → ℚ := fun _ _ => 1/2

/-- The clock formula in the words of the specification (claim C1):
`timeLeftMs[mover] = max(0, timeLeftMs[mover] − elapsed + increment·1000)`.
Stated only to be compared against the embedded source behaviour. -/
def specClockUpdate (timeLeftMs elapsed incrementMs : Int) : Int :=
  max 0 (timeLeftMs - elapsed + incrementMs)

/-- A live `{time:300, increment:2}` game between `A` (white) and `B`
(black), clocks full, white to move, last move at t = 0. -/
def liveHash : GameHashDTO :=
  { playerInfo :=
      [ { userId := "A", color := .white, preRating := 1200 }
      , { userId := "B", color := .black, preRating := 1200 } ]
  , timeLeft := { white := 300000, black := 300000 }
  , gameInfo :=
      { gameVariant := "RAPID", gameType := "BLITZ_5_2"
      , timeControl := { time := 300, increment := 2 } }
  , initialFen := DEFAULT_FEN
  , moves := []
  , pgn := ""
  , turn := .white
  , startedAt := 0
  , lastMovePlayedAt := 0 }

/-- An established player profile: rapid 1200, 100 games. -/
def liveProfile : UserProfile :=
  { rating := { rapid := some 1200 }, totalGames := 100 }

/-- The matching Mongo game document, still `on-going`. -/
def liveMongoGame : MongoGame :=
  { players :=
      [ { userId := "A", color := .white, preRating := 1200 }
      , { userId := "B", color := .black, preRating := 1200 } ]
  , variant := "RAPID"
  , timeControl := { time := 300, increment := 2 } }

/-- The server state with that one live game, its running clock and both
profiles. -/
def liveStore : Store :=
  { redisGames := [("g", liveHash)]
  , timeStates := [("g", { lastMoveTime := 0, isActive := true, currentTurn := .white })]
  , mongoGames := [("g", liveMongoGame)]
  , profiles := [("A", liveProfile), ("B", liveProfile)] }

/-- A successful engine verdict for white's `e4`. -/
def liveEngineMove : EngineMoveResult :=
  { success := true, san := "e4", fromSq := "e2", toSq := "e4"
  , newPgn := "1. e4", newTurn := .black, isGameOver := false }

/-- Closed form of the `calculateNewRatings` success path (proved equal to
the embedded function in `calculateNewRatings_ok`). -/
def newRatingsOf (E : Int → Int → ℚ) (wprof bprof : UserProfile)
    (rt : RatingType) (result : GameResult) : RatingCalculationResult :=
  { whiteOldRating := (infoOfProfile wprof rt).oldRating
  , whiteNewRating := calculateEloRating (infoOfProfile wprof rt)
      (E (infoOfProfile wprof rt).oldRating (infoOfProfile bprof rt).oldRating)
      (getScoreFromResult result).1
  , blackOldRating := (infoOfProfile bprof rt).oldRating
  , blackNewRating := calculateEloRating (infoOfProfile bprof rt)
      (E (infoOfProfile bprof rt).oldRating (infoOfProfile wprof rt).oldRating)
      (getScoreFromResult result).2 }

/-- The state just after black's resignation of game `g` was finalized:
Mongo document completed (white won by resignation, post-ratings written),
both profiles already updated once (A 1216 with a win, B 1184 with a loss,
101 games each), the Redis hash still present with its ending fields set,
clock tracking stopped, and the first `game_over` broadcast in the log. -/
def finalizedStore : Store :=
  { redisGames := [("g",
      { liveHash with gameOver := some true, winner := some (some .white)
                    , result := some .whiteWins
                    , endReason := some "resignation", endedAt := some 1000 })]
  , timeStates := []
  , mongoGames := [("g",
      { players :=
          [ { userId := "A", color := .white, preRating := 1200
            , postRating := some 1216 }
          , { userId := "B", color := .black, preRating := 1200
            , postRating := some 1184 } ]
      , variant := "RAPID"
      , timeControl := { time := 300, increment := 2 }
      , status := "completed"
      , pgn := "1. e4"
      , result := some (.full
          { winner := some .white, reason := "resignation", score := .whiteWins })
      , winner := some (some .white)
      , endedAt := some 1000 })]
  , profiles :=
      [ ("A", { rating := { rapid := some 1216 }, totalGames := 101, wins := 1 })
      , ("B", { rating := { rapid := some 1184 }, totalGames := 101, losses := 1 }) ]
  , emits := [{ target := .room "g", msgType := "game_over" }] }

/-! ## Theorems -/

theorem alookup_ainsert_self {α : Type} (l : List (String × α)) (k : String) (v : α) :
    alookup (ainsert l k v) k = some v := by
  induction l with
  | nil => simp [alookup, ainsert]
  | cons hd tl ih =>
      by_cases h : hd.1 == k
      · simp [alookup, ainsert, h, List.find?]
      · simpa [alookup, ainsert, h, List.find?] using ih

theorem alookup_aupdate_self {α : Type} (l : List (String × α)) (k : String) (f : α → α) :
    alookup (aupdate l k f) k = (alookup l k).map f := by
  induction l with
  | nil => simp [alookup, aupdate]
  | cons hd tl ih =>
      by_cases h : hd.1 == k
      · simp [alookup, aupdate, h, List.find?]
      · simpa [alookup, aupdate, h, List.find?] using ih

/-! ## RatingService (`services/rating/RatingService.ts`)

`calculateExpectedScore` evaluates the real number
`1 / (1 + 10 ^ ((opponentRating - playerRating) / 400))`; the embedding takes
its value as an explicit rational parameter wherever the source calls it.
At equal ratings the value is exactly 1/2 (10^0 = 1 is exact even in binary
floating point). -/

/-- The real-valued identity behind `calculateExpectedScore`: the two players'
expected scores always sum to exactly 1, which justifies instantiating the
black expected score as `1 - ew` when relating the two deltas. -/
theorem expected_score_add_eq_one (x : ℝ) :
    1 / (1 + (10 : ℝ) ^ x) + 1 / (1 + (10 : ℝ) ^ (-x)) = 1 := by
  have h : (0 : ℝ) < (10 : ℝ) ^ x := Real.rpow_pos_of_pos (by norm_num) x
  have h' : (0 : ℝ) < (10 : ℝ) ^ (-x) := Real.rpow_pos_of_pos (by norm_num) (-x)
  have hmul : (10 : ℝ) ^ x * (10 : ℝ) ^ (-x) = 1 := by
    rw [← Real.rpow_add (by norm_num)]
    simp
  field_simp
  nlinarith [h, h']

/-- Evaluation helper: `jsRound q = n` from the two floor inequalities. -/
theorem jsRound_eq (q : ℚ) (n : ℤ) (h1 : (n:ℚ) ≤ q + 1/2) (h2 : q + 1/2 < n + 1) :
    jsRound q = n := by
  rw [jsRound, Int.floor_eq_iff]
  exact ⟨h1, h2⟩

/-- Rounding a value and its negation: the sum of the two rounded values is 0 or 1. -/
theorem jsRound_add_neg_bounds (y : ℚ) :
    0 ≤ jsRound y + jsRound (-y) ∧ jsRound y + jsRound (-y) ≤ 1 := by
  constructor
  · have h1 : (y + 1/2) - 1 < (⌊y + 1/2⌋ : ℚ) := Int.sub_one_lt_floor _
    have h2 : (-y + 1/2) - 1 < (⌊-y + 1/2⌋ : ℚ) := Int.sub_one_lt_floor _
    have h3 : (-1 : ℚ) < ((⌊y + 1/2⌋ + ⌊-y + 1/2⌋ : ℤ) : ℚ) := by push_cast; linarith
    have h4 : (-1 : ℤ) < ⌊y + 1/2⌋ + ⌊-y + 1/2⌋ := by exact_mod_cast h3
    unfold jsRound
    omega
  · have h1 : (⌊y + 1/2⌋ : ℚ) ≤ y + 1/2 := Int.floor_le _
    have h2 : (⌊-y + 1/2⌋ : ℚ) ≤ -y + 1/2 := Int.floor_le _
    have h3 : ((⌊y + 1/2⌋ + ⌊-y + 1/2⌋ : ℤ) : ℚ) ≤ 1 := by push_cast; linarith
    have h4 : ⌊y + 1/2⌋ + ⌊-y + 1/2⌋ ≤ (1 : ℤ) := by exact_mod_cast h3
    unfold jsRound
    omega

/-- `|Math.round(K·x)| ≤ K` whenever `|x| ≤ 1` and `K > 0`. -/
theorem jsRound_abs_le (K : ℤ) (x : ℚ) (hK : 0 < K) (hx : |x| ≤ 1) :
    |jsRound ((K:ℚ) * x)| ≤ K := by
  rw [abs_le] at hx ⊢
  have hK' : (0:ℚ) < (K:ℚ) := by exact_mod_cast hK
  have hKx1 : (K:ℚ) * x ≤ K := by nlinarith [hx.1, hx.2]
  have hKx2 : -(K:ℚ) ≤ (K:ℚ) * x := by nlinarith [hx.1, hx.2]
  constructor
  · exact Int.le_floor.mpr (by push_cast; linarith)
  · have h1 : (K:ℚ) * x + 1/2 < ((K + 1 : ℤ) : ℚ) := by push_cast; linarith
    have h2 : jsRound ((K:ℚ) * x) < K + 1 := Int.floor_lt.mpr h1
    omega

/-- Every K-factor tier value is positive. -/
theorem getKFactor_pos (p : PlayerRatingInfo) : 0 < getKFactor p := by
  unfold getKFactor
  split_ifs <;> norm_num

/-- The K-factor never exceeds the cap used by `calculateEloRating`
(`K_FACTOR_PROVISIONAL = 40` when provisional, else `MAX_RATING_CHANGE = 32`). -/
theorem getKFactor_le_cap (p : PlayerRatingInfo) :
    getKFactor p ≤ (if p.isProvisional then (40:ℤ) else 32) := by
  unfold getKFactor
  split_ifs <;> norm_num

/-- When the player's rating is at least `100 + K`, neither the rating floor
nor the change cap fires, so `calculateEloRating` is exactly
`oldRating + Math.round(K·(score − expected))`. -/
theorem calculateEloRating_no_clamp (p : PlayerRatingInfo) (e s : ℚ)
    (he0 : 0 ≤ e) (he1 : e ≤ 1) (hs0 : 0 ≤ s) (hs1 : s ≤ 1)
    (hr : 100 + getKFactor p ≤ p.oldRating) :
    calculateEloRating p e s =
      p.oldRating + jsRound ((getKFactor p : ℚ) * (s - e)) := by
  have hK := getKFactor_pos p
  have hcap := getKFactor_le_cap p
  have hx : |s - e| ≤ 1 := by rw [abs_le]; constructor <;> linarith
  have hc := jsRound_abs_le (getKFactor p) (s - e) hK hx
  rw [abs_le] at hc
  unfold calculateEloRating
  have hfloor :
      max (p.oldRating + jsRound ((getKFactor p : ℚ) * (s - e))) 100 =
        p.oldRating + jsRound ((getKFactor p : ℚ) * (s - e)) := by
    apply max_eq_left
    omega
  simp only [hfloor]
  have habs :
      ¬ |p.oldRating + jsRound ((getKFactor p : ℚ) * (s - e)) - p.oldRating| >
        (if p.isProvisional then (40:ℤ) else 32) := by
    rw [not_lt, add_sub_cancel_left, abs_le]
    split_ifs at hcap ⊢ <;> omega
  rw [if_neg habs]

/-- C8 (confirmed): the K-factor is exactly 40 when the player has fewer than
30 games, else 10 for rating at least 2400, else 16 for rating at least 2100,
else 32 — tier boundaries at 2100, 2400 and 30 games. -/
theorem getKFactor_tier_boundaries (rating games : Int) :
    getKFactor (mkRatingInfo rating games) =
      if games < 30 then 40
      else if rating ≥ 2400 then 10
      else if rating ≥ 2100 then 16
      else 32 := by
  unfold getKFactor mkRatingInfo
  by_cases h : games < 30 <;> simp [h]

/-- C4 (counterexample): a provisional white (K = 40) against an established
black (K = 32), both rated 1200 — the expected score at equal ratings is
exactly 1/2 for both sides, even in floating point.  After white wins, the
deltas are +20 and −16: their sum is 4, not approximately zero within
rounding. -/
theorem rating_delta_sum_counterexample :
    calcDeltas (mkRatingInfo 1200 0) (mkRatingInfo 1200 100) (1/2) (1 - 1/2)
        GameResult.whiteWins = (20, -16) ∧
    ¬ |(20 : ℤ) + (-16)| ≤ 1 := by
  constructor
  · have h1 : jsRound (20:ℚ) = 20 := by apply jsRound_eq <;> norm_num
    have h2 : jsRound (-16:ℚ) = -16 := by apply jsRound_eq <;> norm_num
    simp only [calcDeltas, calculateEloRating, mkRatingInfo, getKFactor,
      getScoreFromResult]
    norm_num [h1, h2]
  · decide

/-- C4 (amended): when the two players carry the same K-factor and both
ratings are at least `100 + K` (so the rating floor and the cap cannot fire),
the two deltas of one finalization sum to 0 or 1 — approximately zero within
rounding.  With differing K-factors the sum can be far from zero
(`rating_delta_sum_counterexample`). -/
theorem rating_delta_sum_zero_of_equal_kfactor
    (wi bi : PlayerRatingInfo) (ew : ℚ) (result : GameResult)
    (hK : getKFactor wi = getKFactor bi)
    (hew0 : 0 ≤ ew) (hew1 : ew ≤ 1)
    (hw : 100 + getKFactor wi ≤ wi.oldRating)
    (hb : 100 + getKFactor bi ≤ bi.oldRating) :
    0 ≤ (calcDeltas wi bi ew (1 - ew) result).1 +
        (calcDeltas wi bi ew (1 - ew) result).2 ∧
    (calcDeltas wi bi ew (1 - ew) result).1 +
        (calcDeltas wi bi ew (1 - ew) result).2 ≤ 1 := by
  have hb' : 0 ≤ 1 - ew := by linarith
  have hb1 : 1 - ew ≤ 1 := by linarith
  cases result with
  | whiteWins =>
      have e1 := calculateEloRating_no_clamp wi ew 1 hew0 hew1 (by norm_num) (by norm_num) hw
      have e2 := calculateEloRating_no_clamp bi (1 - ew) 0 hb' hb1 (by norm_num) (by norm_num) hb
      simp only [calcDeltas, getScoreFromResult, e1, e2, hK]
      have harg : (getKFactor bi : ℚ) * (0 - (1 - ew)) = -((getKFactor bi : ℚ) * (1 - ew)) := by
        ring
      rw [harg]
      have h := jsRound_add_neg_bounds ((getKFactor bi : ℚ) * (1 - ew))
      constructor <;> [omega; omega]
  | blackWins =>
      have e1 := calculateEloRating_no_clamp wi ew 0 hew0 hew1 (by norm_num) (by norm_num) hw
      have e2 := calculateEloRating_no_clamp bi (1 - ew) 1 hb' hb1 (by norm_num) (by norm_num) hb
      simp only [calcDeltas, getScoreFromResult, e1, e2, hK]
      have harg : (getKFactor bi : ℚ) * (1 - (1 - ew)) = -((getKFactor bi : ℚ) * (0 - ew)) := by
        ring
      rw [harg]
      have h := jsRound_add_neg_bounds ((getKFactor bi : ℚ) * (0 - ew))
      constructor <;> [omega; omega]
  | draw =>
      have e1 := calculateEloRating_no_clamp wi ew (1/2) hew0 hew1 (by norm_num) (by norm_num) hw
      have e2 := calculateEloRating_no_clamp bi (1 - ew) (1/2) hb' hb1 (by norm_num) (by norm_num) hb
      simp only [calcDeltas, getScoreFromResult, e1, e2, hK]
      have harg : (getKFactor bi : ℚ) * (1/2 - (1 - ew)) = -((getKFactor bi : ℚ) * (1/2 - ew)) := by
        ring
      rw [harg]
      have h := jsRound_add_neg_bounds ((getKFactor bi : ℚ) * (1/2 - ew))
      constructor <;> [omega; omega]

/-- Witness for `rating_delta_sum_zero_of_equal_kfactor`: two established
1500-rated players, white wins with expected score 0. -/
theorem rating_delta_sum_zero_of_equal_kfactor_witness :
    getKFactor (mkRatingInfo 1500 100) = getKFactor (mkRatingInfo 1500 100) ∧
    (0:ℚ) ≤ 0 ∧ (0:ℚ) ≤ 1 ∧
    100 + getKFactor (mkRatingInfo 1500 100) ≤ 1500 ∧
    (0 ≤ (calcDeltas (mkRatingInfo 1500 100) (mkRatingInfo 1500 100) 0 (1 - 0)
          GameResult.whiteWins).1 +
        (calcDeltas (mkRatingInfo 1500 100) (mkRatingInfo 1500 100) 0 (1 - 0)
          GameResult.whiteWins).2 ∧
      (calcDeltas (mkRatingInfo 1500 100) (mkRatingInfo 1500 100) 0 (1 - 0)
          GameResult.whiteWins).1 +
        (calcDeltas (mkRatingInfo 1500 100) (mkRatingInfo 1500 100) 0 (1 - 0)
          GameResult.whiteWins).2 ≤ 1) :=
  ⟨rfl, le_refl 0, zero_le_one, by decide,
    rating_delta_sum_zero_of_equal_kfactor (mkRatingInfo 1500 100)
      (mkRatingInfo 1500 100) 0 GameResult.whiteWins rfl (le_refl 0) zero_le_one
      (by decide) (by decide)⟩

theorem zscore_zinsertSorted_self (m : String) (sc : Int)
    (l : List (String × Int)) (h : ∀ p ∈ l, (p.1 == m) = false) :
    zscore (zinsertSorted m sc l) m = some sc := by
  induction l with
  | nil => simp [zinsertSorted, zscore, List.find?]
  | cons hd tl ih =>
      have hhd : (hd.1 == m) = false := h hd (List.mem_cons_self hd tl)
      obtain ⟨m', sc'⟩ := hd
      unfold zinsertSorted
      split
      · simp [zscore, List.find?]
      · simp only [zscore, List.find?, hhd]
        exact ih (fun p hp => h p (List.mem_cons_of_mem _ hp))

theorem zscore_zadd_self (q : List (String × Int)) (m : String) (sc : Int) :
    zscore (zadd q m sc) m = some sc := by
  unfold zadd
  apply zscore_zinsertSorted_self
  intro p hp
  have h := (List.mem_filter.mp hp).2
  simp only [decide_not] at h
  cases hbe : (p.1 == m) with
  | false => rfl
  | true => rw [hbe] at h; simp at h

/-- C5 (counterexample): a session for `alice` started at time 0 with an
expanded range of 300; re-invoking `startSearch` at time 50000 stores
`searchStartTime = 50000` and `currentRange = 60` — the elapsed search time
and expanded range are lost, refuting the claimed idempotence. -/
theorem startSearch_reset_counterexample :
    (alookup (startSearch
        { sessions := [("alice",
            { userId := "alice", gameType := "RAPID_10_0", gameVariant := "RAPID"
            , timeControl := { time := 600, increment := 0 }
            , initialRating := 1200, currentRange := 300
            , searchStartTime := 0, socketId := "w1" })] }
        "alice" "RAPID_10_0" "RAPID" { time := 600, increment := 0 } 1200 "w1"
        50000).sessions "alice").map
      (fun ss => (ss.searchStartTime, ss.currentRange)) =
        some ((50000 : Int), (60 : Int)) ∧
    ((50000 : Int) ≠ 0 ∧ (60 : Int) ≠ 300) := by
  constructor
  · rfl
  · decide

/-- C5 (amended): `startSearch` is an unconditional overwrite, not idempotent
preservation: any re-invocation stores a brand-new session whose
`searchStartTime` is the current time and whose `currentRange` is back at 60
(the TTL is refreshed as claimed), and (re)inserts the player into the
queue at the given rating. -/
theorem startSearch_overwrites_session (s : Store)
    (userId gameType gameVariant : String) (tc : TimeControl) (r : Int)
    (sid : String) (now : Int) :
    alookup (startSearch s userId gameType gameVariant tc r sid now).sessions
        userId =
      some { userId := userId, gameType := gameType, gameVariant := gameVariant
           , timeControl := tc, initialRating := r, currentRange := 60
           , searchStartTime := now, socketId := sid } ∧
    zscore ((alookup (startSearch s userId gameType gameVariant tc r sid
        now).queues gameType).getD []) userId = some r := by
  constructor
  · simp [startSearch, alookup_ainsert_self]
  · show zscore ((alookup (addPlayerToQueue s.queues gameType userId r)
        gameType).getD []) userId = some r
    unfold addPlayerToQueue
    cases alookup s.queues gameType <;>
      simp [alookup_ainsert_self, zscore_zadd_self]

/-- C9 (confirmed): a matchmaking tick for a player with no stored
`SearchSession` returns `found:false, currentRange:0, searchDuration:0` and
leaves the entire store untouched. -/
theorem tick_without_session (E : Int → Int → ℚ) (rand : ℚ) (gid : String)
    (s : Store) (userId : String) (now : Int)
    (h : alookup s.sessions userId = none) :
    processSearchRequest E rand gid s userId now =
      (s, { found := false, gameId := none, opponent := none
          , currentRange := 0, searchDuration := 0, ratingChanges := none }) := by
  unfold processSearchRequest
  rw [h]

/-- Witness for `tick_without_session` on the empty store. -/
theorem tick_without_session_witness :
    alookup (Store.mk [] [] [] [] [] [] [] [] []).sessions "alice" = none ∧
    processSearchRequest (fun _ _ => (0:ℚ)) 0 "g1"
        (Store.mk [] [] [] [] [] [] [] [] []) "alice" 7 =
      (Store.mk [] [] [] [] [] [] [] [] [],
        { found := false, gameId := none, opponent := none
        , currentRange := 0, searchDuration := 0, ratingChanges := none }) :=
  ⟨rfl, tick_without_session (fun _ _ => (0:ℚ)) 0 "g1" _ "alice" 7 rfl⟩

/-- `computeNewRange` in ediv form for nonnegative durations. -/
theorem computeNewRange_eq_of_nonneg (t : Int) (ht : 0 ≤ t) :
    computeNewRange t = min (60 + t / 3000 * 60) 600 := by
  unfold computeNewRange
  have h : Int.fdiv t 3000 = t / 3000 := by
    rw [Int.fdiv_eq_ediv]
    omega
  rw [h]

/-- C7 (confirmed): per tick the new range is
`min(60 + 60 * floor(t / 3000), 600)`; the stored range is replaced exactly
when that value has grown (so it never shrinks, and under the invariant that
the stored range never exceeds the formula, it equals the formula after
the tick); the formula is monotone in elapsed time and saturates at 600 for
every `t ≥ 27000` ms. -/
theorem expanding_window_range (cur t : Int) (ht : 0 ≤ t) :
    (cur ≤ computeNewRange t →
      updatedRange cur (computeNewRange t) = computeNewRange t) ∧
    cur ≤ updatedRange cur (computeNewRange t) ∧
    (∀ u, 0 ≤ u → u ≤ t → computeNewRange u ≤ computeNewRange t) ∧
    (27000 ≤ t → computeNewRange t = 600) := by
  refine ⟨?_, ?_, ?_, ?_⟩
  · intro h
    unfold updatedRange
    split_ifs <;> omega
  · unfold updatedRange
    split_ifs <;> omega
  · intro u hu hut
    rw [computeNewRange_eq_of_nonneg u hu, computeNewRange_eq_of_nonneg t ht]
    have hdiv : u / 3000 ≤ t / 3000 := by omega
    simp only [min_def]
    split_ifs <;> omega
  · intro h
    rw [computeNewRange_eq_of_nonneg t ht]
    have h9 : 9 ≤ t / 3000 := by omega
    simp only [min_def]
    split_ifs <;> omega

/-- Witness for `expanding_window_range` at the saturation boundary. -/
theorem expanding_window_range_witness :
    (0 : Int) ≤ 27000 ∧
    ((60 ≤ computeNewRange 27000 →
        updatedRange 60 (computeNewRange 27000) = computeNewRange 27000) ∧
      (60 : Int) ≤ updatedRange 60 (computeNewRange 27000) ∧
      (∀ u, 0 ≤ u → u ≤ 27000 → computeNewRange u ≤ computeNewRange 27000) ∧
      ((27000 : Int) ≤ 27000 → computeNewRange 27000 = 600)) :=
  ⟨by decide, expanding_window_range 60 27000 (by decide)⟩

theorem alookup_aupdate_ne {α : Type} (l : List (String × α)) (k k' : String)
    (f : α → α) (h : k ≠ k') : alookup (aupdate l k f) k' = alookup l k' := by
  induction l with
  | nil => rfl
  | cons hd tl ih =>
      obtain ⟨a, b⟩ := hd
      by_cases hak : a = k
      · have h1 : (a == k') = false := beq_eq_false_iff_ne.mpr (by rw [hak]; exact h)
        have h2 : (a == k) = true := beq_iff_eq.mpr hak
        simp [alookup, aupdate, List.find?, h2, h1] at ih ⊢
        exact ih
      · have h2 : (a == k) = false := beq_eq_false_iff_ne.mpr hak
        by_cases hak' : a = k'
        · have h1 : (a == k') = true := beq_iff_eq.mpr hak'
          simp [alookup, aupdate, List.find?, h2, h1]
        · have h1 : (a == k') = false := beq_eq_false_iff_ne.mpr hak'
          simp [alookup, aupdate, List.find?, h2, h1] at ih ⊢
          exact ih

theorem getGameHash_eq (games : List (String × GameHashDTO)) (gameId : String)
    (g : GameHashDTO) (h : alookup games gameId = some g) :
    getGameHash games gameId =
      some { g with gameOver := none, winner := none, result := none
                  , endReason := none, endedAt := none } := by
  unfold getGameHash
  rw [h]
  rfl

theorem TimeLeft.get_set_self (t : TimeLeft) (c : PlayerColor) (v : Int) :
    (t.set c v).get c = v := by
  cases c <;> rfl

/-- C10 (confirmed): `calculateCurrentTime` returns 0 whenever the live hash
or the in-process clock entry is absent, and returns the stored
`timeLeft[color]` unchanged whenever both are present but it is not that
color's turn on an active clock. -/
theorem calculateCurrentTime_missing_or_idle
    (games : List (String × GameHashDTO))
    (timeStates : List (String × GameTimeState))
    (gameId : String) (c : PlayerColor) (now : Int) :
    ((alookup games gameId = none ∨ alookup timeStates gameId = none) →
      calculateCurrentTime games timeStates gameId c now = 0) ∧
    (∀ g t, alookup games gameId = some g → alookup timeStates gameId = some t →
      ¬ (t.currentTurn = c ∧ t.isActive = true) →
      calculateCurrentTime games timeStates gameId c now = g.timeLeft.get c) := by
  constructor
  · intro h
    unfold calculateCurrentTime getGameHash
    rcases h with h | h
    · rw [h]
      cases alookup timeStates gameId <;> rfl
    · rw [h]
      cases alookup games gameId <;> rfl
  · intro g t hg ht hcond
    unfold calculateCurrentTime
    rw [getGameHash_eq games gameId g hg, ht]
    simp only
    rw [if_neg hcond]

/-- Witness for `calculateCurrentTime_missing_or_idle`: the empty store
yields 0; a present game with an inactive clock yields the stored 300000. -/
theorem calculateCurrentTime_missing_or_idle_witness :
    calculateCurrentTime [] [] "g" .white 5000 = 0 ∧
    calculateCurrentTime [("g", liveHash)]
        [("g", { lastMoveTime := 0, isActive := false, currentTurn := .white })]
        "g" .white 5000 = liveHash.timeLeft.get .white :=
  ⟨(calculateCurrentTime_missing_or_idle [] [] "g" .white 5000).1
      (Or.inl rfl),
    (calculateCurrentTime_missing_or_idle [("g", liveHash)]
        [("g", { lastMoveTime := 0, isActive := false, currentTurn := .white })]
        "g" .white 5000).2 liveHash
      { lastMoveTime := 0, isActive := false, currentTurn := .white }
      rfl rfl (by decide)⟩

/-- C6 (counterexample): player `A` reports white out of time while white
still has 295000 ms.  No forfeit occurs (profiles untouched), but the
corrective time broadcast is emitted to the game room — not to the
reporter's socket only, as the claim states. -/
theorem time_up_report_room_broadcast_counterexample :
    calculateCurrentTime liveStore.redisGames liveStore.timeStates "g"
        .white 5000 = 295000 ∧
    (handleClientTimeUpReport halfE liveStore "g" "A" .white "" 5000).emits =
      [{ target := .room "g", msgType := "time_update" }] ∧
    (handleClientTimeUpReport halfE liveStore "g" "A" .white "" 5000).profiles =
      liveStore.profiles ∧
    EmitTarget.room "g" ≠ EmitTarget.socket "A" := by
  refine ⟨by decide, by decide, by decide, by decide⟩

/-- C6 (amended): on a time-up report from a game member, when the claimed
player's computed remaining time is within the 100 ms tolerance the handler
defers to `handleTimeUp` (the forfeit path); otherwise no forfeit occurs and
the corrective `time_update` broadcast is pushed to the entire game room
(`io.to(gameId)`), not to the reporter only. -/
theorem client_time_up_report_behavior (E : Int → Int → ℚ) (s : Store)
    (gameId uid : String) (claimed : PlayerColor) (pgn : String) (now : Int)
    (g : GameHashDTO) (p : PlayerDTO)
    (hg : alookup s.redisGames gameId = some g)
    (hp : g.playerInfo.find? (fun q => q.userId == uid) = some p) :
    (calculateCurrentTime s.redisGames s.timeStates gameId claimed now ≤ 100 →
      handleClientTimeUpReport E s gameId uid claimed pgn now =
        handleTimeUp E s gameId claimed pgn now) ∧
    (100 < calculateCurrentTime s.redisGames s.timeStates gameId claimed now →
      handleClientTimeUpReport E s gameId uid claimed pgn now =
        s.emit (.room gameId) "time_update") := by
  constructor
  · intro hle
    unfold handleClientTimeUpReport
    rw [getGameHash_eq s.redisGames gameId g hg]
    simp only
    rw [hp]
    simp only
    rw [if_pos hle]
  · intro hgt
    unfold handleClientTimeUpReport
    rw [getGameHash_eq s.redisGames gameId g hg]
    simp only
    rw [hp]
    simp only
    rw [if_neg (not_le.mpr hgt)]
    unfold broadcastTimeUpdate
    rw [getGameHash_eq s.redisGames gameId g hg]

/-- Witness for `client_time_up_report_behavior` on the live fixture. -/
theorem client_time_up_report_behavior_witness :
    alookup liveStore.redisGames "g" = some liveHash ∧
    liveHash.playerInfo.find? (fun q => q.userId == "A") =
      some { userId := "A", color := .white, preRating := 1200 } ∧
    ((calculateCurrentTime liveStore.redisGames liveStore.timeStates "g"
          .white 5000 ≤ 100 →
        handleClientTimeUpReport halfE liveStore "g" "A" .white "" 5000 =
          handleTimeUp halfE liveStore "g" .white "" 5000) ∧
      (100 < calculateCurrentTime liveStore.redisGames liveStore.timeStates "g"
          .white 5000 →
        handleClientTimeUpReport halfE liveStore "g" "A" .white "" 5000 =
          liveStore.emit (.room "g") "time_update")) :=
  ⟨by decide, by decide,
    client_time_up_report_behavior halfE liveStore "g" "A" .white "" 5000
      liveHash { userId := "A", color := .white, preRating := 1200 }
      (by decide) (by decide)⟩

theorem addMoveToGameHash_ok (games : List (String × GameHashDTO))
    (gid : String) (mv : MoveDTO) (c : PlayerColor) (now : Int)
    (g : GameHashDTO) (hg : alookup games gid = some g) (hc : c = g.turn) :
    addMoveToGameHash games gid mv c now = .ok (aupdate games gid (fun g0 =>
      { g0 with moves := g.moves ++ [mv]
              , timeLeft := g.timeLeft.set g.turn (max 0 (g.timeLeft.get g.turn -
                  max 0 (now - g.lastMovePlayedAt -
                    g.gameInfo.timeControl.increment * 1000)))
              , turn := getOppositeColor g.turn
              , lastMovePlayedAt := now })) := by
  unfold addMoveToGameHash
  rw [hg]
  simp only
  rw [if_neg (by simp [hc])]

theorem updateTimeAfterMove_present (games : List (String × GameHashDTO))
    (ts : List (String × GameTimeState)) (gid : String) (mover : PlayerColor)
    (mts : Int) (g : GameHashDTO) (t : GameTimeState)
    (hg : alookup games gid = some g) (ht : alookup ts gid = some t) :
    updateTimeAfterMove games ts gid mover mts =
      ( aupdate games gid (fun g0 =>
          { g0 with
            timeLeft := g.timeLeft.set mover
              (max 0 (g.timeLeft.get mover - (mts - t.lastMoveTime) +
                g.gameInfo.timeControl.increment * 1000))
          , lastMovePlayedAt := mts
          , turn := getOppositeColor mover })
      , ainsert ts gid
          { lastMoveTime := mts, currentTurn := getOppositeColor mover
          , isActive := t.isActive } ) := by
  unfold updateTimeAfterMove
  rw [getGameHash_eq games gid g hg, ht]

/-- C1 (counterexample): the spec scenario — `{time:300, increment:2}`, white
plays `e4` 4000 ms after `lastMoveAt`.  The spec formula gives 298000 ms, but
the pipeline updates the mover's clock twice (`addMoveToGameHash` deducts
`max(0, elapsed − inc)`, then `TimeManager.updateTimeAfterMove` deducts
`elapsed − inc` again against the in-process reference), ending at
296000 ms, not 298000.  The move is appended once and the turn does flip. -/
theorem move_clock_counterexample :
    specClockUpdate 300000 4000 2000 = 298000 ∧
    (alookup (handleMove liveStore "g" "A" liveEngineMove 4000).redisGames
        "g").map (fun g => (g.timeLeft.white, g.moves.length, g.turn)) =
      some (296000, 1, .black) ∧
    (296000 : Int) ≠ 298000 := by
  refine ⟨by decide, by decide, by decide⟩

/-- C1 (amended): for every accepted move, the mover's clock is updated
twice, not once — first by `addMoveToGameHash` to
`max(0, T − max(0, e₁ − inc))` with `e₁ = now − lastMovePlayedAt`, then by
`TimeManager.updateTimeAfterMove` to `max(0, · − e₂ + inc)` with
`e₂ = now − clockState.lastMoveTime`; the move is appended exactly once and
the stored turn ends as the engine's post-move turn (the opponent whenever
the engine replay is consistent).  In the spec's own scenario the mover's
clock ends at 296000 ms, not 298000 ms. -/
theorem handleMove_accepted (s : Store) (gameId uid : String)
    (eng : EngineMoveResult) (now : Int) (g : GameHashDTO)
    (t : GameTimeState) (p : PlayerDTO)
    (hg : alookup s.redisGames gameId = some g)
    (ht : alookup s.timeStates gameId = some t)
    (hp : g.playerInfo.find? (fun q => q.userId == uid) = some p)
    (hturn : p.color = g.turn)
    (hsucc : eng.success = true) :
    (alookup (handleMove s gameId uid eng now).redisGames gameId).map
        (fun g' => (g'.moves, g'.turn, g'.timeLeft.get g.turn)) =
      some (g.moves ++
          [{ move := eng.san, fromSq := eng.fromSq, toSq := eng.toSq
           , timeStamp := now }],
        eng.newTurn,
        max 0 (max 0 (g.timeLeft.get g.turn -
            max 0 (now - g.lastMovePlayedAt -
              g.gameInfo.timeControl.increment * 1000)) -
          (now - t.lastMoveTime) + g.gameInfo.timeControl.increment * 1000)) := by
  unfold handleMove
  rw [getGameHash_eq s.redisGames gameId g hg]
  dsimp only
  rw [hp]
  dsimp only
  rw [if_neg (by simp [hsucc])]
  rw [addMoveToGameHash_ok s.redisGames gameId _ p.color now g hg hturn]
  dsimp only
  have hg1 : alookup (aupdate s.redisGames gameId (fun g0 =>
      { g0 with moves := g.moves ++
          [{ move := eng.san, fromSq := eng.fromSq, toSq := eng.toSq
           , timeStamp := now }]
              , timeLeft := g.timeLeft.set g.turn (max 0 (g.timeLeft.get g.turn -
                  max 0 (now - g.lastMovePlayedAt -
                    g.gameInfo.timeControl.increment * 1000)))
              , turn := getOppositeColor g.turn
              , lastMovePlayedAt := now })) gameId = some
      { g with moves := g.moves ++
          [{ move := eng.san, fromSq := eng.fromSq, toSq := eng.toSq
           , timeStamp := now }]
             , timeLeft := g.timeLeft.set g.turn (max 0 (g.timeLeft.get g.turn -
                 max 0 (now - g.lastMovePlayedAt -
                   g.gameInfo.timeControl.increment * 1000)))
             , turn := getOppositeColor g.turn
             , lastMovePlayedAt := now } := by
    rw [alookup_aupdate_self, hg]
    rfl
  rw [updateTimeAfterMove_present _ _ _ _ _ _ t hg1 ht]
  dsimp only
  cases hover : eng.isGameOver <;>
    simp [Store.emit, stopGameTimer, alookup_aupdate_self, hg, hturn,
      TimeLeft.get_set_self, Option.map_map]

/-- Witness for `handleMove_accepted` on the spec scenario fixture. -/
theorem handleMove_accepted_witness :
    alookup liveStore.redisGames "g" = some liveHash ∧
    alookup liveStore.timeStates "g" =
      some { lastMoveTime := 0, isActive := true, currentTurn := .white } ∧
    liveHash.playerInfo.find? (fun q => q.userId == "A") =
      some { userId := "A", color := .white, preRating := 1200 } ∧
    (alookup (handleMove liveStore "g" "A" liveEngineMove 4000).redisGames
        "g").map (fun g' => (g'.moves, g'.turn, g'.timeLeft.get liveHash.turn)) =
      some (liveHash.moves ++
          [{ move := "e4", fromSq := "e2", toSq := "e4", timeStamp := 4000 }],
        PlayerColor.black,
        max 0 (max 0 (liveHash.timeLeft.get liveHash.turn -
            max 0 (4000 - liveHash.lastMovePlayedAt -
              liveHash.gameInfo.timeControl.increment * 1000)) -
          (4000 - 0) + liveHash.gameInfo.timeControl.increment * 1000)) :=
  ⟨by decide, by decide, by decide,
    handleMove_accepted liveStore "g" "A" liveEngineMove 4000 liveHash
      { lastMoveTime := 0, isActive := true, currentTurn := .white }
      { userId := "A", color := .white, preRating := 1200 }
      (by decide) (by decide) (by decide) (by decide) (by decide)⟩

theorem calculateNewRatings_ok (E : Int → Int → ℚ)
    (mongoGames : List (String × MongoGame))
    (profiles : List (String × UserProfile)) (gid : String)
    (result : GameResult) (variant : String) (doc : MongoGame)
    (wp bp : MongoPlayer) (wprof bprof : UserProfile) (rt : RatingType)
    (hdoc : alookup mongoGames gid = some doc)
    (hwp : doc.players.find? (fun q => q.color == PlayerColor.white) = some wp)
    (hbp : doc.players.find? (fun q => q.color == PlayerColor.black) = some bp)
    (hwprof : alookup profiles wp.userId = some wprof)
    (hbprof : alookup profiles bp.userId = some bprof)
    (hrt : getRatingTypeFromVariant variant = .ok rt) :
    calculateNewRatings E mongoGames profiles gid result variant =
      .ok (newRatingsOf E wprof bprof rt result) := by
  unfold calculateNewRatings
  rw [hdoc]
  dsimp only
  rw [hwp]
  dsimp only
  rw [hbp]
  dsimp only
  rw [hwprof]
  dsimp only
  rw [hbprof]
  dsimp only
  rw [hrt]
  rfl

theorem updatePlayerRatings_ok (E : Int → Int → ℚ)
    (mongoGames : List (String × MongoGame))
    (profiles : List (String × UserProfile)) (gid : String)
    (result : GameResult) (variant : String) (winner : Option PlayerColor)
    (doc : MongoGame) (wp bp : MongoPlayer) (wprof bprof : UserProfile)
    (rt : RatingType)
    (hdoc : alookup mongoGames gid = some doc)
    (hwp : doc.players.find? (fun q => q.color == PlayerColor.white) = some wp)
    (hbp : doc.players.find? (fun q => q.color == PlayerColor.black) = some bp)
    (hwprof : alookup profiles wp.userId = some wprof)
    (hbprof : alookup profiles bp.userId = some bprof)
    (hrt : getRatingTypeFromVariant variant = .ok rt) :
    updatePlayerRatings E mongoGames profiles gid result variant winner =
      .ok
        ( aupdate mongoGames gid
            (mongoRatingsPatch (newRatingsOf E wprof bprof rt result).whiteNewRating
              (newRatingsOf E wprof bprof rt result).blackNewRating result winner)
        , aupdate (aupdate profiles wp.userId (fun p =>
            applyProfileUpdate p rt
              (newRatingsOf E wprof bprof rt result).whiteNewRating winner .white))
            bp.userId (fun p =>
              applyProfileUpdate p rt
                (newRatingsOf E wprof bprof rt result).blackNewRating winner .black)
        , newRatingsOf E wprof bprof rt result ) := by
  unfold updatePlayerRatings
  rw [calculateNewRatings_ok E mongoGames profiles gid result variant doc wp bp
    wprof bprof rt hdoc hwp hbp hwprof hbprof hrt]
  dsimp only [Bind.bind, Except.bind]
  rw [hrt]
  dsimp only
  rw [hdoc]
  dsimp only
  rw [hwp]
  dsimp only
  rw [hbp]

theorem handleResignation_ok (E : Int → Int → ℚ) (s : Store) (gid : String)
    (c : PlayerColor) (pgn : String) (now : Int) (g : GameHashDTO)
    (doc : MongoGame) (wp bp : MongoPlayer) (wprof bprof : UserProfile)
    (rt : RatingType)
    (hg : alookup s.redisGames gid = some g)
    (hdoc : alookup s.mongoGames gid = some doc)
    (hwp : doc.players.find? (fun q => q.color == PlayerColor.white) = some wp)
    (hbp : doc.players.find? (fun q => q.color == PlayerColor.black) = some bp)
    (hwprof : alookup s.profiles wp.userId = some wprof)
    (hbprof : alookup s.profiles bp.userId = some bprof)
    (hrt : getRatingTypeFromVariant g.gameInfo.gameVariant = .ok rt) :
    handleResignation E s gid c pgn now = .ok
      { s with
        mongoGames := aupdate
          (aupdate s.mongoGames gid
            (mongoRatingsPatch
              (newRatingsOf E wprof bprof rt
                (winnerResult (getOppositeColor c))).whiteNewRating
              (newRatingsOf E wprof bprof rt
                (winnerResult (getOppositeColor c))).blackNewRating
              (winnerResult (getOppositeColor c))
              (some (getOppositeColor c))))
          gid
          (completeGamePatch pgn (some (getOppositeColor c)) "resignation"
            (winnerResult (getOppositeColor c)) now)
      , profiles := aupdate
          (aupdate s.profiles wp.userId (fun p =>
            applyProfileUpdate p rt
              (newRatingsOf E wprof bprof rt
                (winnerResult (getOppositeColor c))).whiteNewRating
              (some (getOppositeColor c)) .white))
          bp.userId (fun p =>
            applyProfileUpdate p rt
              (newRatingsOf E wprof bprof rt
                (winnerResult (getOppositeColor c))).blackNewRating
              (some (getOppositeColor c)) .black) } := by
  unfold handleResignation
  rw [getGameHash_eq s.redisGames gid g hg]
  dsimp only
  rw [updatePlayerRatings_ok E s.mongoGames s.profiles gid
    (winnerResult (getOppositeColor c)) g.gameInfo.gameVariant
    (some (getOppositeColor c)) doc wp bp wprof bprof rt
    hdoc hwp hbp hwprof hbprof hrt]
  rfl

theorem handleTimeForfit_ok (E : Int → Int → ℚ) (s : Store) (gid : String)
    (c : PlayerColor) (pgn : String) (now : Int) (g : GameHashDTO)
    (doc : MongoGame) (wp bp : MongoPlayer) (wprof bprof : UserProfile)
    (rt : RatingType)
    (hg : alookup s.redisGames gid = some g)
    (hdoc : alookup s.mongoGames gid = some doc)
    (hwp : doc.players.find? (fun q => q.color == PlayerColor.white) = some wp)
    (hbp : doc.players.find? (fun q => q.color == PlayerColor.black) = some bp)
    (hwprof : alookup s.profiles wp.userId = some wprof)
    (hbprof : alookup s.profiles bp.userId = some bprof)
    (hrt : getRatingTypeFromVariant g.gameInfo.gameVariant = .ok rt) :
    handleTimeForfit E s gid c pgn now = .ok
      { s with
        mongoGames := aupdate
          (aupdate s.mongoGames gid
            (mongoRatingsPatch
              (newRatingsOf E wprof bprof rt
                (winnerResult (getOppositeColor c))).whiteNewRating
              (newRatingsOf E wprof bprof rt
                (winnerResult (getOppositeColor c))).blackNewRating
              (winnerResult (getOppositeColor c))
              (some (getOppositeColor c))))
          gid
          (completeGamePatch pgn (some (getOppositeColor c)) "timeout"
            (winnerResult (getOppositeColor c)) now)
      , profiles := aupdate
          (aupdate s.profiles wp.userId (fun p =>
            applyProfileUpdate p rt
              (newRatingsOf E wprof bprof rt
                (winnerResult (getOppositeColor c))).whiteNewRating
              (some (getOppositeColor c)) .white))
          bp.userId (fun p =>
            applyProfileUpdate p rt
              (newRatingsOf E wprof bprof rt
                (winnerResult (getOppositeColor c))).blackNewRating
              (some (getOppositeColor c)) .black) } := by
  unfold handleTimeForfit
  rw [getGameHash_eq s.redisGames gid g hg]
  dsimp only
  rw [updatePlayerRatings_ok E s.mongoGames s.profiles gid
    (winnerResult (getOppositeColor c)) g.gameInfo.gameVariant
    (some (getOppositeColor c)) doc wp bp wprof bprof rt
    hdoc hwp hbp hwprof hbprof hrt]
  rfl

/-- C2 (counterexample): `finalizedStore` holds game `g` already finalized —
`gameOver = true` in the hash, Mongo status `completed`, ratings applied
once.  A second resignation (now by white) does not fail and is not a no-op:
it broadcasts another `game_over` and bumps white's counters again
(`totalGames` 101 → 102, a fresh loss), because no path consults `gameOver`
(`getGameHash` does not even read the field back). -/
theorem second_resign_counterexample :
    (alookup finalizedStore.redisGames "g").map (fun q => q.gameOver) =
      some (some true) ∧
    (alookup finalizedStore.mongoGames "g").map (fun d => d.status) =
      some "completed" ∧
    (alookup finalizedStore.profiles "A").map (fun q => q.totalGames) =
      some 101 ∧
    (handleResign halfE finalizedStore "g" "A" "1. e4" 2000).emits =
      finalizedStore.emits ++ [{ target := .room "g", msgType := "game_over" }] ∧
    (alookup (handleResign halfE finalizedStore "g" "A" "1. e4" 2000).profiles
        "A").map (fun q => (q.totalGames, q.losses)) = some (102, 1) := by
  refine ⟨by decide, by decide, by decide, by decide, by decide⟩

/-- C2 (amended): there is no finalization guard.  On a game whose hash
carries `gameOver = true` and whose Mongo document is already `completed`, a
further resignation still succeeds: it re-runs the whole finalization —
rating updates and counter increments are applied again to both profiles
(with the winner recomputed as the opposite of the new resigner) and another
`game_over` is broadcast — instead of failing with `Finalized` and leaving
state unchanged.  (Moves are only ever refused by the turn and legality
checks, and draw-acceptance likewise carries no `gameOver` check.) -/
theorem handleResign_refinalizes (E : Int → Int → ℚ) (s : Store)
    (gid uid pgn : String) (now : Int) (g : GameHashDTO) (p : PlayerDTO)
    (doc : MongoGame) (wp bp : MongoPlayer) (wprof bprof : UserProfile)
    (rt : RatingType)
    (hg : alookup s.redisGames gid = some g)
    (hflag : g.gameOver = some true)
    (hp : g.playerInfo.find? (fun q => q.userId == uid) = some p)
    (hdoc : alookup s.mongoGames gid = some doc)
    (hstatus : doc.status = "completed")
    (hwp : doc.players.find? (fun q => q.color == PlayerColor.white) = some wp)
    (hbp : doc.players.find? (fun q => q.color == PlayerColor.black) = some bp)
    (hwprof : alookup s.profiles wp.userId = some wprof)
    (hbprof : alookup s.profiles bp.userId = some bprof)
    (hne : wp.userId ≠ bp.userId)
    (hrt : getRatingTypeFromVariant g.gameInfo.gameVariant = .ok rt) :
    (handleResign E s gid uid pgn now).emits =
      s.emits ++ [{ target := .room gid, msgType := "game_over" }] ∧
    (alookup (handleResign E s gid uid pgn now).profiles wp.userId).map
      (fun q => q.totalGames) = some (wprof.totalGames + 1) ∧
    (alookup (handleResign E s gid uid pgn now).profiles bp.userId).map
      (fun q => q.totalGames) = some (bprof.totalGames + 1) := by
  have hmain : handleResign E s gid uid pgn now =
      Store.emit
        { s with
          mongoGames := aupdate
            (aupdate s.mongoGames gid
              (mongoRatingsPatch
                (newRatingsOf E wprof bprof rt
                  (winnerResult (getOppositeColor p.color))).whiteNewRating
                (newRatingsOf E wprof bprof rt
                  (winnerResult (getOppositeColor p.color))).blackNewRating
                (winnerResult (getOppositeColor p.color))
                (some (getOppositeColor p.color))))
            gid
            (completeGamePatch pgn (some (getOppositeColor p.color))
              "resignation" (winnerResult (getOppositeColor p.color)) now)
        , profiles := aupdate
            (aupdate s.profiles wp.userId (fun q =>
              applyProfileUpdate q rt
                (newRatingsOf E wprof bprof rt
                  (winnerResult (getOppositeColor p.color))).whiteNewRating
                (some (getOppositeColor p.color)) .white))
            bp.userId (fun q =>
              applyProfileUpdate q rt
                (newRatingsOf E wprof bprof rt
                  (winnerResult (getOppositeColor p.color))).blackNewRating
                (some (getOppositeColor p.color)) .black)
        , timeStates := stopGameTimer s.timeStates gid }
        (.room gid) "game_over" := by
    unfold handleResign
    rw [getGameHash_eq s.redisGames gid g hg]
    dsimp only
    rw [hp]
    dsimp only
    rw [handleResignation_ok E s gid p.color pgn now g doc wp bp wprof bprof rt
      hg hdoc hwp hbp hwprof hbprof hrt]
  rw [hmain]
  refine ⟨rfl, ?_, ?_⟩
  · dsimp only [Store.emit]
    rw [alookup_aupdate_ne _ bp.userId wp.userId _ (Ne.symm hne),
      alookup_aupdate_self, hwprof]
    rfl
  · dsimp only [Store.emit]
    rw [alookup_aupdate_self, alookup_aupdate_ne _ wp.userId bp.userId _ hne,
      hbprof]
    rfl

/-- Witness for `handleResign_refinalizes` on `finalizedStore`. -/
theorem handleResign_refinalizes_witness :
    (handleResign halfE finalizedStore "g" "A" "1. e4" 2000).emits =
      finalizedStore.emits ++ [{ target := .room "g", msgType := "game_over" }] ∧
    (alookup (handleResign halfE finalizedStore "g" "A" "1. e4" 2000).profiles
        "A").map (fun q => q.totalGames) = some (101 + 1) ∧
    (alookup (handleResign halfE finalizedStore "g" "A" "1. e4" 2000).profiles
        "B").map (fun q => q.totalGames) = some (101 + 1) :=
  handleResign_refinalizes halfE finalizedStore "g" "A" "1. e4" 2000
    { liveHash with gameOver := some true, winner := some (some .white)
                  , result := some .whiteWins
                  , endReason := some "resignation", endedAt := some 1000 }
    { userId := "A", color := .white, preRating := 1200 }
    { players :=
        [ { userId := "A", color := .white, preRating := 1200
          , postRating := some 1216 }
        , { userId := "B", color := .black, preRating := 1200
          , postRating := some 1184 } ]
    , variant := "RAPID"
    , timeControl := { time := 300, increment := 2 }
    , status := "completed"
    , pgn := "1. e4"
    , result := some (.full
        { winner := some .white, reason := "resignation", score := .whiteWins })
    , winner := some (some .white)
    , endedAt := some 1000 }
    { userId := "A", color := .white, preRating := 1200, postRating := some 1216 }
    { userId := "B", color := .black, preRating := 1200, postRating := some 1184 }
    { rating := { rapid := some 1216 }, totalGames := 101, wins := 1 }
    { rating := { rapid := some 1184 }, totalGames := 101, losses := 1 }
    RatingType.rapid
    (by decide) (by decide) (by decide) (by decide) (by decide) (by decide)
    (by decide) (by decide) (by decide) (by decide) rfl

/-- C3 (counterexample): on `finalizedStore` — game `g` already finalized and
its ratings already applied once (`totalGames = 101`) — a further
`handleTimeUp` invocation runs the entire finalization again: both profiles
are bumped a second time (white 101 → 102, a fresh loss) and another
`game_over` is broadcast, even though the hash already carried
`gameOver = true`.  The `gameOver` write is not a guard: nothing ever reads
it (`getGameHash` drops the field), so rating updates are per-invocation,
not exactly-once per game. -/
theorem timeup_refinalizes_counterexample :
    (alookup finalizedStore.redisGames "g").map (fun q => q.gameOver) =
      some (some true) ∧
    (alookup finalizedStore.profiles "A").map (fun q => q.totalGames) =
      some 101 ∧
    (handleTimeUp halfE finalizedStore "g" .white "1. e4" 3000).emits =
      finalizedStore.emits ++ [{ target := .room "g", msgType := "game_over" }] ∧
    (alookup (handleTimeUp halfE finalizedStore "g" .white "1. e4"
        3000).profiles "A").map (fun q => (q.totalGames, q.losses)) =
      some (102, 1) ∧
    (alookup (handleTimeUp halfE finalizedStore "g" .white "1. e4"
        3000).profiles "B").map (fun q => q.totalGames) = some 102 := by
  refine ⟨by decide, by decide, by decide, by decide, by decide⟩

/-- C3 (amended): there is no single atomic flip of `gameOver` guarding
rating updates.  `handleTimeUp` (like every finalization path) applies the
rating and counter updates on every invocation for which the live hash is
still present — even when the hash already has `gameOver = true` and the
Mongo document is already `completed` — and only afterwards writes the
ending fields, which no reader ever consults.  Rating updates are therefore
applied once per finalization *invocation*, not exactly once per game. -/
theorem handleTimeUp_reapplies (E : Int → Int → ℚ) (s : Store)
    (gid pgn : String) (c : PlayerColor) (now : Int) (g : GameHashDTO)
    (doc : MongoGame) (wp bp : MongoPlayer) (wprof bprof : UserProfile)
    (rt : RatingType)
    (hg : alookup s.redisGames gid = some g)
    (hflag : g.gameOver = some true)
    (hdoc : alookup s.mongoGames gid = some doc)
    (hstatus : doc.status = "completed")
    (hwp : doc.players.find? (fun q => q.color == PlayerColor.white) = some wp)
    (hbp : doc.players.find? (fun q => q.color == PlayerColor.black) = some bp)
    (hwprof : alookup s.profiles wp.userId = some wprof)
    (hbprof : alookup s.profiles bp.userId = some bprof)
    (hne : wp.userId ≠ bp.userId)
    (hrt : getRatingTypeFromVariant g.gameInfo.gameVariant = .ok rt) :
    (handleTimeUp E s gid c pgn now).emits =
      s.emits ++ [{ target := .room gid, msgType := "game_over" }] ∧
    (alookup (handleTimeUp E s gid c pgn now).profiles wp.userId).map
      (fun q => q.totalGames) = some (wprof.totalGames + 1) ∧
    (alookup (handleTimeUp E s gid c pgn now).profiles bp.userId).map
      (fun q => q.totalGames) = some (bprof.totalGames + 1) ∧
    (alookup (handleTimeUp E s gid c pgn now).redisGames gid).map
      (fun q => q.gameOver) = some (some true) := by
  have hmain : handleTimeUp E s gid c pgn now =
      Store.emit
        { s with
          timeStates := stopGameTimer s.timeStates gid
        , mongoGames := aupdate
            (aupdate s.mongoGames gid
              (mongoRatingsPatch
                (newRatingsOf E wprof bprof rt
                  (winnerResult (getOppositeColor c))).whiteNewRating
                (newRatingsOf E wprof bprof rt
                  (winnerResult (getOppositeColor c))).blackNewRating
                (winnerResult (getOppositeColor c))
                (some (getOppositeColor c))))
            gid
            (completeGamePatch pgn (some (getOppositeColor c)) "timeout"
              (winnerResult (getOppositeColor c)) now)
        , profiles := aupdate
            (aupdate s.profiles wp.userId (fun q =>
              applyProfileUpdate q rt
                (newRatingsOf E wprof bprof rt
                  (winnerResult (getOppositeColor c))).whiteNewRating
                (some (getOppositeColor c)) .white))
            bp.userId (fun q =>
              applyProfileUpdate q rt
                (newRatingsOf E wprof bprof rt
                  (winnerResult (getOppositeColor c))).blackNewRating
                (some (getOppositeColor c)) .black)
        , redisGames := aupdate s.redisGames gid (fun q =>
            { q with gameOver := some true
                   , winner := some (some (getOppositeColor c))
                   , result := some (winnerResult (getOppositeColor c))
                   , endReason := some "timeout"
                   , endedAt := some now }) }
        (.room gid) "game_over" := by
    unfold handleTimeUp
    rw [getGameHash_eq s.redisGames gid g hg]
    dsimp only
    rw [handleTimeForfit_ok E
      { s with timeStates := stopGameTimer s.timeStates gid } gid c pgn now g
      doc wp bp wprof bprof rt hg hdoc hwp hbp hwprof hbprof hrt]
  rw [hmain]
  refine ⟨rfl, ?_, ?_, ?_⟩
  · dsimp only [Store.emit]
    rw [alookup_aupdate_ne _ bp.userId wp.userId _ (Ne.symm hne),
      alookup_aupdate_self, hwprof]
    rfl
  · dsimp only [Store.emit]
    rw [alookup_aupdate_self, alookup_aupdate_ne _ wp.userId bp.userId _ hne,
      hbprof]
    rfl
  · dsimp only [Store.emit]
    rw [alookup_aupdate_self, hg]
    rfl

/-- Witness for `handleTimeUp_reapplies` on `finalizedStore`. -/
theorem handleTimeUp_reapplies_witness :
    (handleTimeUp halfE finalizedStore "g" .white "1. e4" 3000).emits =
      finalizedStore.emits ++ [{ target := .room "g", msgType := "game_over" }] ∧
    (alookup (handleTimeUp halfE finalizedStore "g" .white "1. e4"
        3000).profiles "A").map (fun q => q.totalGames) = some (101 + 1) ∧
    (alookup (handleTimeUp halfE finalizedStore "g" .white "1. e4"
        3000).profiles "B").map (fun q => q.totalGames) = some (101 + 1) ∧
    (alookup (handleTimeUp halfE finalizedStore "g" .white "1. e4"
        3000).redisGames "g").map (fun q => q.gameOver) = some (some true) :=
  handleTimeUp_reapplies halfE finalizedStore "g" "1. e4" .white 3000
    { liveHash with gameOver := some true, winner := some (some .white)
                  , result := some .whiteWins
                  , endReason := some "resignation", endedAt := some 1000 }
    { players :=
        [ { userId := "A", color := .white, preRating := 1200
          , postRating := some 1216 }
        , { userId := "B", color := .black, preRating := 1200
          , postRating := some 1184 } ]
    , variant := "RAPID"
    , timeControl := { time := 300, increment := 2 }
    , status := "completed"
    , pgn := "1. e4"
    , result := some (.full
        { winner := some .white, reason := "resignation", score := .whiteWins })
    , winner := some (some .white)
    , endedAt := some 1000 }
    { userId := "A", color := .white, preRating := 1200, postRating := some 1216 }
    { userId := "B", color := .black, preRating := 1200, postRating := some 1184 }
    { rating := { rapid := some 1216 }, totalGames := 101, wins := 1 }
    { rating := { rapid := some 1184 }, totalGames := 101, losses := 1 }
    RatingType.rapid
    (by decide) (by decide) (by decide) (by decide) (by decide) (by decide)
    (by decide) (by decide) (by decide) rfl

end ChessServer
